import Mathlib

/-!
Shallow embedding of the Banking-System Front End prototype
(`account.py`, `transaction.py`, `validator.py`, `file_handler.py`,
`banking_system.py`) and proofs about it.

Monetary amounts are modelled as exact rationals (`ℚ`); strings are Lean
`String`s.  Python's in-place object mutation is modelled by explicit state
passing: the controller state is a structure, account mutation is an update
of the account list at the index where the Python code's lookup found the
(aliased) `Account` object.
-/

namespace Banking

/-- Model of Python `str.ljust(width)`: pad on the right with spaces. -/
def pyLjust (s : String) (width : Nat) : String :=
  if width ≤ s.length then s
  else s ++ String.mk (List.replicate (width - s.length) ' ')

/-- Model of Python `str.zfill(width)`: pad with leading zeros after an
optional sign character. -/
def pyZfill (s : String) (width : Nat) : String :=
  if width ≤ s.length then s
  else
    match s.data with
    | [] => String.mk (List.replicate width '0')
    | c :: rest =>
      if c = '-' ∨ c = '+' then
        String.mk (c :: (List.replicate (width - s.length) '0' ++ rest))
      else
        String.mk (List.replicate (width - s.length) '0' ++ s.data)

/-- The decimal digit character for `n < 10`. -/
def digitChar (n : Nat) : Char := Char.ofNat (48 + n)

/-- Decimal digits of `n`, least significant first. -/
def natDigitsRev (n : Nat) : List Char :=
  if h : n < 10 then [digitChar n]
  else digitChar (n % 10) :: natDigitsRev (n / 10)
  termination_by n
  decreasing_by exact Nat.div_lt_self (by omega) (by omega)

/-- Model of Python `str(n)` for a natural number. -/
def natToString (n : Nat) : String := String.mk (natDigitsRev n).reverse

/-- Model of Python `str(n)` for an integer. -/
def intToPyString (n : Int) : String :=
  if n < 0 then "-" ++ natToString n.natAbs else natToString n.natAbs

/-- Numeric value of a list of decimal digit characters (most significant
first). -/
def digitsVal (cs : List Char) : Nat :=
  cs.foldl (fun acc c => 10 * acc + (c.toNat - 48)) 0

/-- Model of Python `int(s)` (base 10) on optionally signed decimal strings:
returns `none` where Python raises `ValueError`.  (Python additionally
accepts surrounding whitespace and underscore digit separators; such strings
are never string-equal to the canonically formatted numbers this model
compares against, so they are immaterial to the properties proved here.) -/
def pyInt? (s : String) : Option Int :=
  match s.data with
  | [] => none
  | c :: rest =>
    if c = '-' then
      if rest ≠ [] ∧ rest.all Char.isDigit then some (-(digitsVal rest : Int)) else none
    else if c = '+' then
      if rest ≠ [] ∧ rest.all Char.isDigit then some ((digitsVal rest : Int)) else none
    else if (c :: rest).all Char.isDigit then some ((digitsVal (c :: rest) : Int)) else none

/-- Floor of a rational number (Python float-to-int semantics are not
needed; this is used only for decimal rendering). -/
def ratFloor (q : ℚ) : Int := Int.fdiv q.num q.den

/-- Round a rational to the nearest integer, ties to even — the rounding
used by Python's `format(x, '.2f')`. -/
def roundHalfEven (q : ℚ) : Int :=
  let f := ratFloor q
  let r := q - (f : ℚ)
  if r < 1 / 2 then f
  else if 1 / 2 < r then f + 1
  else if f % 2 = 0 then f else f + 1

/-- Model of Python `f"{x:.2f}"`: fixed-point rendering with two decimals. -/
def formatFixed2 (q : ℚ) : String :=
  let c := roundHalfEven (q * 100)
  let sign := if c < 0 then "-" else ""
  let n := c.natAbs
  sign ++ natToString (n / 100) ++ "." ++
    (if n % 100 < 10 then "0" else "") ++ natToString (n % 100)

/-- `account.py` — the `Account` entity: account number, holder name,
status character, balance. -/
structure Account where
  account_number : String
  holder_name : String
  status : String
  balance : ℚ
  deriving Repr, DecidableEq

namespace Account

/-- `Account.is_disabled`: status equals `"D"`. -/
def is_disabled (a : Account) : Bool := a.status == "D"

/-- `Account.disable`: set status to `"D"`. -/
def disable (a : Account) : Account := { a with status := "D" }

/-- `Account.withdraw`: mutate balance iff it covers the amount; returns the
updated account together with the Python method's boolean result. -/
def withdraw (a : Account) (amount : ℚ) : Account × Bool :=
  if a.balance < amount then (a, false)
  else ({ a with balance := a.balance - amount }, true)

/-- `Account.deposit`: unconditionally add to the balance. -/
def deposit (a : Account) (amount : ℚ) : Account :=
  { a with balance := a.balance + amount }

end Account

/-- `transaction.py` — one output transaction record. -/
structure Transaction where
  code : String
  account_holder_name : String
  account_number : String
  amount : ℚ
  misc : String
  deriving Repr, DecidableEq

namespace Transaction

/-- `Transaction.to_file_string`: one fixed-width output line. -/
def to_file_string (t : Transaction) : String :=
  let name := (pyLjust t.account_holder_name 20).take 20
  let account_num := pyZfill t.account_number 5
  let amount := pyZfill (formatFixed2 t.amount) 8
  let misc := (pyLjust t.misc 2).take 2
  t.code ++ " " ++ name ++ " " ++ account_num ++ " " ++ amount ++ misc

/-- `Transaction.create_withdrawal` (code `"01"`). -/
def create_withdrawal (name num : String) (amount : ℚ) : Transaction :=
  ⟨"01", name, num, amount, "  "⟩

/-- `Transaction.create_transfer` (code `"02"`): misc field is the last two
characters of the 5-zero-padded destination number. -/
def create_transfer (name from_account to_account : String) (amount : ℚ) : Transaction :=
  ⟨"02", name, from_account, amount, (pyZfill to_account 5).takeRight 2⟩

/-- `Transaction.create_paybill` (code `"03"`). -/
def create_paybill (name num : String) (amount : ℚ) (company : String) : Transaction :=
  ⟨"03", name, num, amount, company⟩

/-- `Transaction.create_deposit` (code `"04"`). -/
def create_deposit (name num : String) (amount : ℚ) : Transaction :=
  ⟨"04", name, num, amount, "  "⟩

/-- `Transaction.create_account` (code `"05"`). -/
def create_account (name num : String) (initial_balance : ℚ) : Transaction :=
  ⟨"05", name, num, initial_balance, "  "⟩

/-- `Transaction.create_delete` (code `"06"`, amount forced to 0). -/
def create_delete (name num : String) : Transaction :=
  ⟨"06", name, num, 0, "  "⟩

/-- `Transaction.create_disable` (code `"07"`, amount forced to 0). -/
def create_disable (name num : String) : Transaction :=
  ⟨"07", name, num, 0, "  "⟩

/-- `Transaction.create_changeplan` (code `"08"`, amount forced to 0). -/
def create_changeplan (name num : String) : Transaction :=
  ⟨"08", name, num, 0, "  "⟩

/-- `Transaction.create_end_session` (code `"00"`): blank 20-character name,
account number `"00000"`, amount 0. -/
def create_end_session : Transaction :=
  ⟨"00", String.mk (List.replicate 20 ' '), "00000", 0, "  "⟩

end Transaction

/-- `validator.py` constant `MAX_WITHDRAWAL_STANDARD`. -/
def MAX_WITHDRAWAL_STANDARD : ℚ := 500
/-- `validator.py` constant `MAX_TRANSFER_STANDARD`. -/
def MAX_TRANSFER_STANDARD : ℚ := 1000
/-- `validator.py` constant `MAX_PAYBILL_STANDARD`. -/
def MAX_PAYBILL_STANDARD : ℚ := 2000
/-- `validator.py` constant `MAX_ACCOUNT_BALANCE`. -/
def MAX_ACCOUNT_BALANCE : ℚ := 99999 + 99 / 100
/-- `validator.py` constant `MAX_NAME_LENGTH`. -/
def MAX_NAME_LENGTH : Nat := 20
/-- `validator.py` constant `VALID_COMPANIES`. -/
def VALID_COMPANIES : List String := ["EC", "CQ", "FI"]

/-- `Validator.validate_withdrawal`: first violated rule's message, else
`none`. -/
def validate_withdrawal (account : Option Account) (amount : ℚ)
    (is_admin : Bool) (session_total : ℚ) : Option String :=
  match account with
  | none => some "Account not found."
  | some a =>
    if a.is_disabled then some "Account is disabled."
    else if amount ≤ 0 then some "Amount must be positive."
    else if is_admin = false ∧ MAX_WITHDRAWAL_STANDARD < session_total + amount then
      some "Maximum withdrawal per session is $500.00."
    else if a.balance < amount then some "Insufficient funds."
    else none

/-- `Validator.validate_transfer`. -/
def validate_transfer (source target : Option Account) (amount : ℚ)
    (is_admin : Bool) (session_total : ℚ) : Option String :=
  match source with
  | none => some "Source account not found."
  | some src =>
    match target with
    | none => some "Destination account not found."
    | some tgt =>
      if src.is_disabled ∨ tgt.is_disabled then
        some "Source or destination account is disabled."
      else if amount ≤ 0 then some "Amount must be positive."
      else if is_admin = false ∧ MAX_TRANSFER_STANDARD < session_total + amount then
        some "Maximum transfer per session is $1000.00."
      else if src.balance < amount then some "Insufficient funds in source account."
      else none

/-- `Validator.validate_paybill`. -/
def validate_paybill (account : Option Account) (amount : ℚ) (company : String)
    (is_admin : Bool) (session_total : ℚ) : Option String :=
  match account with
  | none => some "Account not found."
  | some a =>
    if a.is_disabled then some "Account is disabled."
    else if company ∉ VALID_COMPANIES then
      some "Invalid company code. Valid codes: EC, CQ, FI."
    else if amount ≤ 0 then some "Amount must be positive."
    else if is_admin = false ∧ MAX_PAYBILL_STANDARD < session_total + amount then
      some "Maximum paybill per session is $2000.00."
    else if a.balance < amount then some "Insufficient funds."
    else none

/-- `Validator.validate_deposit`. -/
def validate_deposit (account : Option Account) (amount : ℚ) : Option String :=
  match account with
  | none => some "Account not found."
  | some a =>
    if a.is_disabled then some "Account is disabled."
    else if amount ≤ 0 then some "Amount must be positive."
    else none

/-- `Validator.validate_create`. -/
def validate_create (holder_name : String) (initial_balance : ℚ)
    (account_exists : Bool) : Option String :=
  if MAX_NAME_LENGTH < holder_name.length then
    some "Account holder name must be at most 20 characters."
  else if initial_balance < 0 then some "Initial balance cannot be negative."
  else if MAX_ACCOUNT_BALANCE < initial_balance then
    some "Maximum account balance is $99999.99."
  else if account_exists then some "Account number already exists."
  else none

/-- `Validator.validate_account_exists`. -/
def validate_account_exists (account : Option Account) : Option String :=
  match account with
  | none => some "Account not found."
  | some _ => none

/-- `Validator.validate_disable`. -/
def validate_disable (account : Option Account) : Option String :=
  match account with
  | none => some "Account not found."
  | some a =>
    if a.is_disabled then some "Account is already disabled."
    else none

/-- `file_handler.py` — `FileHandler.generate_transaction_file`: serialize
every session transaction plus the End-Session marker, newline-terminated. -/
def generate_transaction_file (transactions : List Transaction) : String :=
  String.intercalate "\n"
      (transactions.map Transaction.to_file_string
        ++ [Transaction.create_end_session.to_file_string])
    ++ "\n"

/-- `banking_system.py` — the controller state owned by `BankingSystem`:
account list, transaction log, login state, and per-session totals. -/
structure BankingSystem where
  accounts : List Account
  transactions : List Transaction
  is_logged_in : Bool
  is_admin : Bool
  current_user : Option String
  session_withdrawals : ℚ
  session_transfers : ℚ
  session_paybills : ℚ
  deriving Repr, DecidableEq

namespace BankingSystem

/-- `BankingSystem.__init__`: empty state, logged out, zero totals. -/
def init : BankingSystem :=
  ⟨[], [], false, false, none, 0, 0, 0⟩

/-- `BankingSystem.find_account_by_number`, returning the index of the first
account whose number matches (the Python loop returns the aliased object;
the index identifies it for explicit-state mutation). -/
def find_account_by_number_idx (accounts : List Account) (account_number : String) :
    Option Nat :=
  match accounts with
  | [] => none
  | a :: rest =>
    if a.account_number = account_number then some 0
    else (find_account_by_number_idx rest account_number).map (· + 1)

/-- `BankingSystem.find_user_account`, returning the index of the first
account matching holder name plus number.  The holder name is an `Option`
because an admin call may pass Python `None`, which compares unequal to
every holder-name string. -/
def find_user_account_idx (accounts : List Account) (holder_name : Option String)
    (account_number : String) : Option Nat :=
  match accounts with
  | [] => none
  | a :: rest =>
    if holder_name = some a.holder_name ∧ a.account_number = account_number then some 0
    else (find_user_account_idx rest holder_name account_number).map (· + 1)

/-- The acting owner: `holder_name if self.is_admin else (self.current_user
or '')`. -/
def resolve_owner (s : BankingSystem) (holder_name : Option String) : Option String :=
  if s.is_admin then holder_name else some (s.current_user.getD "")

/-- The account object the Python code resolves for a given owner and
number. -/
def resolved_account (s : BankingSystem) (holder_name : Option String)
    (account_number : String) : Option Account :=
  (find_user_account_idx s.accounts (resolve_owner s holder_name) account_number).bind
    fun j => s.accounts[j]?

/-- `BankingSystem.process_login`. -/
def process_login (s : BankingSystem) (mode : String) (user_name : Option String) :
    BankingSystem × Bool × String :=
  if s.is_logged_in then (s, false, "Already logged in. Please logout first.")
  else if mode = "admin" then
    ({ s with
        is_logged_in := true, is_admin := true, current_user := some "Admin" },
      true, "Admin session started.")
  else if mode = "standard" then
    if user_name.getD "" = "" then
      (s, false, "Account holder name required for standard login.")
    else
      ({ s with
          is_logged_in := true, is_admin := false, current_user := user_name },
        true, "Standard user " ++ user_name.getD "" ++ " logged in.")
  else (s, false, "Invalid login mode. Use \"standard\" or \"admin\".")

/-- `BankingSystem.process_logout`: reset login state and session totals. -/
def process_logout (s : BankingSystem) : BankingSystem × Bool × String :=
  if s.is_logged_in = false then (s, false, "Not logged in.")
  else
    ({ s with
        is_logged_in := false, is_admin := false, current_user := none,
        session_withdrawals := 0, session_transfers := 0, session_paybills := 0 },
      true, "Session ended. Transaction file ready for download.")

/-- `BankingSystem.process_withdrawal`.  The two inner `none` fallbacks are
unreachable: `validate_withdrawal` rejects a missing account, and a found
index is always in range. -/
def process_withdrawal (s : BankingSystem) (account_number : String) (amount : ℚ)
    (holder_name : Option String) : BankingSystem × Bool × String :=
  if s.is_logged_in = false then (s, false, "Must be logged in to perform transactions.")
  else
    let owner := resolve_owner s holder_name
    let idx := find_user_account_idx s.accounts owner account_number
    let account := idx.bind fun j => s.accounts[j]?
    match validate_withdrawal account amount s.is_admin s.session_withdrawals with
    | some error => (s, false, error)
    | none =>
      match idx, account with
      | some j, some a =>
        let a2 := (a.withdraw amount).1
        ({ s with
            accounts := s.accounts.set j a2,
            session_withdrawals := s.session_withdrawals + amount,
            transactions := s.transactions
              ++ [Transaction.create_withdrawal (owner.getD "") account_number amount] },
          true,
          "Withdrawal of $" ++ formatFixed2 amount ++ " successful. New balance: $"
            ++ formatFixed2 a2.balance)
      | _, _ => (s, false, "Account not found.")

/-- `BankingSystem.process_transfer`.  Source is resolved by owner name plus
number, destination by number only; both mutations go through the account
list so that a source and destination resolving to the same index alias the
same account, as the Python objects do. -/
def process_transfer (s : BankingSystem) (source_number target_number : String)
    (amount : ℚ) (holder_name : Option String) : BankingSystem × Bool × String :=
  if s.is_logged_in = false then (s, false, "Must be logged in to perform transactions.")
  else
    let owner := resolve_owner s holder_name
    let src_idx := find_user_account_idx s.accounts owner source_number
    let tgt_idx := find_account_by_number_idx s.accounts target_number
    let source := src_idx.bind fun i => s.accounts[i]?
    let target := tgt_idx.bind fun j => s.accounts[j]?
    match validate_transfer source target amount s.is_admin s.session_transfers with
    | some error => (s, false, error)
    | none =>
      match src_idx, source, tgt_idx with
      | some i, some src, some j =>
        let accounts1 := s.accounts.set i (src.withdraw amount).1
        let accounts2 :=
          match accounts1[j]? with
          | some tgt1 => accounts1.set j (tgt1.deposit amount)
          | none => accounts1
        ({ s with
            accounts := accounts2,
            session_transfers := s.session_transfers + amount,
            transactions := s.transactions
              ++ [Transaction.create_transfer (owner.getD "") source_number
                    target_number amount] },
          true, "Transfer of $" ++ formatFixed2 amount ++ " successful.")
      | _, _, _ => (s, false, "Source account not found.")

/-- `BankingSystem.process_paybill`. -/
def process_paybill (s : BankingSystem) (account_number : String) (amount : ℚ)
    (company : String) (holder_name : Option String) : BankingSystem × Bool × String :=
  if s.is_logged_in = false then (s, false, "Must be logged in to perform transactions.")
  else
    let owner := resolve_owner s holder_name
    let idx := find_user_account_idx s.accounts owner account_number
    let account := idx.bind fun j => s.accounts[j]?
    match validate_paybill account amount company s.is_admin s.session_paybills with
    | some error => (s, false, error)
    | none =>
      match idx, account with
      | some j, some a =>
        let a2 := (a.withdraw amount).1
        ({ s with
            accounts := s.accounts.set j a2,
            session_paybills := s.session_paybills + amount,
            transactions := s.transactions
              ++ [Transaction.create_paybill (owner.getD "") account_number amount
                    company] },
          true, "Bill payment of $" ++ formatFixed2 amount ++ " to " ++ company
            ++ " successful.")
      | _, _ => (s, false, "Account not found.")

/-- `BankingSystem.process_deposit`: record-only, no in-memory mutation. -/
def process_deposit (s : BankingSystem) (account_number : String) (amount : ℚ)
    (holder_name : Option String) : BankingSystem × Bool × String :=
  if s.is_logged_in = false then (s, false, "Must be logged in to perform transactions.")
  else
    let owner := resolve_owner s holder_name
    let idx := find_user_account_idx s.accounts owner account_number
    let account := idx.bind fun j => s.accounts[j]?
    match validate_deposit account amount with
    | some error => (s, false, error)
    | none =>
      ({ s with
          transactions := s.transactions
            ++ [Transaction.create_deposit (owner.getD "") account_number amount] },
        true,
        "Deposit of $" ++ formatFixed2 amount ++ " accepted (available next session).")

/-- One iteration of the `_generate_account_number` loop: skip an
unparseable number (`except ValueError: continue`), keep the running
maximum otherwise. -/
def maxAccountNumberStep (m : Int) (a : Account) : Int :=
  match pyInt? a.account_number with
  | none => m
  | some value => if m < value then value else m

/-- `BankingSystem._generate_account_number`: maximum parseable account
number plus one, zero-padded to five digits. -/
def generate_account_number (accounts : List Account) : String :=
  let max_number : Int := accounts.foldl maxAccountNumberStep 0
  pyZfill (intToPyString (max_number + 1)) 5

/-- `BankingSystem.process_create`: privileged, record-only. -/
def process_create (s : BankingSystem) (holder_name : String) (initial_balance : ℚ) :
    BankingSystem × Bool × String :=
  if s.is_logged_in = false then (s, false, "Must be logged in to perform transactions.")
  else if s.is_admin = false then
    (s, false, "Create account is a privileged transaction. Admin access required.")
  else
    let new_number := generate_account_number s.accounts
    let account_exists := (find_account_by_number_idx s.accounts new_number).isSome
    match validate_create holder_name initial_balance account_exists with
    | some error => (s, false, error)
    | none =>
      ({ s with
          transactions := s.transactions
            ++ [Transaction.create_account holder_name new_number initial_balance] },
        true, "Account " ++ new_number ++ " created for " ++ holder_name
          ++ " (available next session).")

/-- `BankingSystem.process_delete`: privileged; removes every account
matching holder name plus number. -/
def process_delete (s : BankingSystem) (holder_name account_number : String) :
    BankingSystem × Bool × String :=
  if s.is_logged_in = false then (s, false, "Must be logged in to perform transactions.")
  else if s.is_admin = false then
    (s, false, "Delete account is a privileged transaction. Admin access required.")
  else
    let idx := find_user_account_idx s.accounts (some holder_name) account_number
    let account := idx.bind fun j => s.accounts[j]?
    match validate_account_exists account with
    | some error => (s, false, error)
    | none =>
      ({ s with
          accounts := s.accounts.filter
            (fun a => ¬(a.holder_name = holder_name ∧ a.account_number = account_number)),
          transactions := s.transactions
            ++ [Transaction.create_delete holder_name account_number] },
        true, "Account " ++ account_number ++ " for " ++ holder_name ++ " deleted.")

/-- `BankingSystem.process_disable`: privileged; sets the found account's
status to disabled. -/
def process_disable (s : BankingSystem) (holder_name account_number : String) :
    BankingSystem × Bool × String :=
  if s.is_logged_in = false then (s, false, "Must be logged in to perform transactions.")
  else if s.is_admin = false then
    (s, false, "Disable account is a privileged transaction. Admin access required.")
  else
    let idx := find_user_account_idx s.accounts (some holder_name) account_number
    let account := idx.bind fun j => s.accounts[j]?
    match validate_disable account with
    | some error => (s, false, error)
    | none =>
      match idx, account with
      | some j, some a =>
        ({ s with
            accounts := s.accounts.set j a.disable,
            transactions := s.transactions
              ++ [Transaction.create_disable holder_name account_number] },
          true, "Account " ++ account_number ++ " for " ++ holder_name ++ " disabled.")
      | _, _ => (s, false, "Account not found.")

/-- `BankingSystem.process_changeplan`: privileged, record-only. -/
def process_changeplan (s : BankingSystem) (holder_name account_number : String) :
    BankingSystem × Bool × String :=
  if s.is_logged_in = false then (s, false, "Must be logged in to perform transactions.")
  else if s.is_admin = false then
    (s, false, "Change plan is a privileged transaction. Admin access required.")
  else
    let idx := find_user_account_idx s.accounts (some holder_name) account_number
    let account := idx.bind fun j => s.accounts[j]?
    match validate_account_exists account with
    | some error => (s, false, error)
    | none =>
      ({ s with
          transactions := s.transactions
            ++ [Transaction.create_changeplan holder_name account_number] },
        true, "Payment plan changed for account " ++ account_number ++ ".")

end BankingSystem

/-- One controller request, carrying the already-parsed fields the external
prompt layer hands to the corresponding `process_*` method. -/
inductive Op where
  | login (mode : String) (user_name : Option String)
  | logout
  | withdrawal (account_number : String) (amount : ℚ) (holder_name : Option String)
  | transfer (source_number target_number : String) (amount : ℚ)
      (holder_name : Option String)
  | paybill (account_number : String) (amount : ℚ) (company : String)
      (holder_name : Option String)
  | deposit (account_number : String) (amount : ℚ) (holder_name : Option String)
  | create (holder_name : String) (initial_balance : ℚ)
  | delete (holder_name account_number : String)
  | disable (holder_name account_number : String)
  | changeplan (holder_name account_number : String)
  deriving Repr, DecidableEq

/-- Dispatch one request to its `process_*` method. -/
def applyOp (s : BankingSystem) : Op → BankingSystem × Bool × String
  | .login mode user_name => s.process_login mode user_name
  | .logout => s.process_logout
  | .withdrawal num amount hn => s.process_withdrawal num amount hn
  | .transfer src tgt amount hn => s.process_transfer src tgt amount hn
  | .paybill num amount company hn => s.process_paybill num amount company hn
  | .deposit num amount hn => s.process_deposit num amount hn
  | .create hn bal => s.process_create hn bal
  | .delete hn num => s.process_delete hn num
  | .changeplan hn num => s.process_changeplan hn num
  | .disable hn num => s.process_disable hn num

/-- Run a sequence of requests, keeping only the evolving state. -/
def runOps (s : BankingSystem) (ops : List Op) : BankingSystem :=
  ops.foldl (fun st op => (applyOp st op).1) s

/-- The controller state right after `__init__` followed by
`load_accounts` (which replaces the account list with the parsed file
contents): any account list, empty log, logged out, zero totals. -/
def startState (accounts : List Account) : BankingSystem :=
  { BankingSystem.init with accounts := accounts }

/-- The transaction codes the eight controller-reachable factories emit. -/
def GoodCode (t : Transaction) : Prop :=
  t.code ∈ (["01", "02", "03", "04", "05", "06", "07", "08"] : List String)

/-- Invariant maintained by every controller operation: a logged-out state
has zero session totals, a non-admin state respects the three session caps,
and every logged transaction carries a factory code. -/
def Inv (s : BankingSystem) : Prop :=
  (s.is_logged_in = false →
      s.session_withdrawals = 0 ∧ s.session_transfers = 0 ∧ s.session_paybills = 0)
  ∧ (s.is_admin = false →
      s.session_withdrawals ≤ MAX_WITHDRAWAL_STANDARD
        ∧ s.session_transfers ≤ MAX_TRANSFER_STANDARD
        ∧ s.session_paybills ≤ MAX_PAYBILL_STANDARD)
  ∧ (∀ t ∈ s.transactions, GoodCode t)

/-! ## Lemmas about account lookup -/

namespace BankingSystem

theorem find_user_account_idx_some {accounts : List Account} {hn : Option String}
    {num : String} {j : Nat}
    (h : find_user_account_idx accounts hn num = some j) :
    ∃ a, accounts[j]? = some a ∧ hn = some a.holder_name ∧ a.account_number = num := by
  induction accounts generalizing j with
  | nil => simp [find_user_account_idx] at h
  | cons a rest ih =>
    rw [find_user_account_idx] at h
    split at h
    · next hcond =>
      cases h
      exact ⟨a, by simp, hcond.1, hcond.2⟩
    · rcases Option.map_eq_some'.mp h with ⟨j', hj', rfl⟩
      rcases ih hj' with ⟨b, hb, hown, hnum⟩
      exact ⟨b, by simpa using hb, hown, hnum⟩

theorem find_account_by_number_idx_some {accounts : List Account}
    {num : String} {j : Nat}
    (h : find_account_by_number_idx accounts num = some j) :
    ∃ a, accounts[j]? = some a ∧ a.account_number = num := by
  induction accounts generalizing j with
  | nil => simp [find_account_by_number_idx] at h
  | cons a rest ih =>
    rw [find_account_by_number_idx] at h
    split at h
    · next hcond =>
      cases h
      exact ⟨a, by simp, hcond⟩
    · rcases Option.map_eq_some'.mp h with ⟨j', hj', rfl⟩
      rcases ih hj' with ⟨b, hb, hnum⟩
      exact ⟨b, by simpa using hb, hnum⟩

theorem find_account_by_number_idx_isSome {accounts : List Account} {num : String}
    (h : (find_account_by_number_idx accounts num).isSome = true) :
    ∃ a ∈ accounts, a.account_number = num := by
  rcases Option.isSome_iff_exists.mp h with ⟨j, hj⟩
  rcases find_account_by_number_idx_some hj with ⟨a, ha, hnum⟩
  exact ⟨a, List.getElem?_mem ha, hnum⟩

end BankingSystem

/-! ## Inversion lemmas for the validator -/

theorem validate_withdrawal_none_inv {a : Account} {amount : ℚ} {is_admin : Bool}
    {st : ℚ} (h : validate_withdrawal (some a) amount is_admin st = none) :
    a.is_disabled = false ∧ 0 < amount ∧
      (is_admin = false → st + amount ≤ MAX_WITHDRAWAL_STANDARD) ∧
      amount ≤ a.balance := by
  rw [validate_withdrawal] at h
  split_ifs at h with h1 h2 h3 h4
  refine ⟨by simpa using h1, lt_of_not_le h2, fun hia => ?_, le_of_not_lt h4⟩
  by_contra hgt
  exact h3 ⟨hia, lt_of_not_le hgt⟩

theorem validate_transfer_none_inv {src tgt : Account} {amount : ℚ} {is_admin : Bool}
    {st : ℚ} (h : validate_transfer (some src) (some tgt) amount is_admin st = none) :
    src.is_disabled = false ∧ tgt.is_disabled = false ∧ 0 < amount ∧
      (is_admin = false → st + amount ≤ MAX_TRANSFER_STANDARD) ∧
      amount ≤ src.balance := by
  rw [validate_transfer] at h
  split_ifs at h with h1 h2 h3 h4
  push_neg at h1
  refine ⟨by simpa using h1.1, by simpa using h1.2, lt_of_not_le h2, fun hia => ?_,
    le_of_not_lt h4⟩
  by_contra hgt
  exact h3 ⟨hia, lt_of_not_le hgt⟩

theorem validate_paybill_none_inv {a : Account} {amount : ℚ} {company : String}
    {is_admin : Bool} {st : ℚ}
    (h : validate_paybill (some a) amount company is_admin st = none) :
    a.is_disabled = false ∧ company ∈ VALID_COMPANIES ∧ 0 < amount ∧
      (is_admin = false → st + amount ≤ MAX_PAYBILL_STANDARD) ∧
      amount ≤ a.balance := by
  rw [validate_paybill] at h
  split_ifs at h with h1 h2 h3 h4 h5
  refine ⟨by simpa using h1, h2, lt_of_not_le h3, fun hia => ?_,
    le_of_not_lt h5⟩
  by_contra hgt
  exact h4 ⟨hia, lt_of_not_le hgt⟩

/-! ## Shape lemmas for the controller operations -/

namespace BankingSystem

theorem process_withdrawal_success {s : BankingSystem} {num : String} {amt : ℚ}
    {hn : Option String} (h : (s.process_withdrawal num amt hn).2.1 = true) :
    ∃ j a, s.is_logged_in = true ∧
      find_user_account_idx s.accounts (resolve_owner s hn) num = some j ∧
      s.accounts[j]? = some a ∧
      validate_withdrawal (some a) amt s.is_admin s.session_withdrawals = none ∧
      (s.process_withdrawal num amt hn).1 =
        { s with
            accounts := s.accounts.set j (a.withdraw amt).1,
            session_withdrawals := s.session_withdrawals + amt,
            transactions := s.transactions
              ++ [Transaction.create_withdrawal ((resolve_owner s hn).getD "") num
                    amt] } := by
  rcases hE : s.process_withdrawal num amt hn with ⟨s', ok, msg⟩
  rw [hE] at h
  simp only at h ⊢
  unfold process_withdrawal at hE
  dsimp only at hE
  split at hE
  · cases hE; simp at h
  · next hlog =>
    split at hE
    · cases hE; simp at h
    · next hval =>
      split at hE
      · next j a hidx hacc =>
        cases hE
        rw [hidx] at hval hacc
        simp only [Option.some_bind] at hval hacc
        rw [hacc] at hval
        exact ⟨j, a, by simpa using hlog, hidx, hacc, hval, rfl⟩
      · cases hE; simp at h

theorem process_withdrawal_fail {s : BankingSystem} {num : String} {amt : ℚ}
    {hn : Option String} (h : (s.process_withdrawal num amt hn).2.1 = false) :
    (s.process_withdrawal num amt hn).1 = s := by
  rcases hE : s.process_withdrawal num amt hn with ⟨s', ok, msg⟩
  rw [hE] at h
  simp only at h ⊢
  unfold process_withdrawal at hE
  dsimp only at hE
  split at hE
  · cases hE; rfl
  · split at hE
    · cases hE; rfl
    · split at hE
      · cases hE; simp at h
      · cases hE; rfl

theorem process_paybill_success {s : BankingSystem} {num : String} {amt : ℚ}
    {company : String} {hn : Option String}
    (h : (s.process_paybill num amt company hn).2.1 = true) :
    ∃ j a, s.is_logged_in = true ∧
      find_user_account_idx s.accounts (resolve_owner s hn) num = some j ∧
      s.accounts[j]? = some a ∧
      validate_paybill (some a) amt company s.is_admin s.session_paybills = none ∧
      (s.process_paybill num amt company hn).1 =
        { s with
            accounts := s.accounts.set j (a.withdraw amt).1,
            session_paybills := s.session_paybills + amt,
            transactions := s.transactions
              ++ [Transaction.create_paybill ((resolve_owner s hn).getD "") num amt
                    company] } := by
  rcases hE : s.process_paybill num amt company hn with ⟨s', ok, msg⟩
  rw [hE] at h
  simp only at h ⊢
  unfold process_paybill at hE
  dsimp only at hE
  split at hE
  · cases hE; simp at h
  · next hlog =>
    split at hE
    · cases hE; simp at h
    · next hval =>
      split at hE
      · next j a hidx hacc =>
        cases hE
        rw [hidx] at hval hacc
        simp only [Option.some_bind] at hval hacc
        rw [hacc] at hval
        exact ⟨j, a, by simpa using hlog, hidx, hacc, hval, rfl⟩
      · cases hE; simp at h

theorem process_paybill_fail {s : BankingSystem} {num : String} {amt : ℚ}
    {company : String} {hn : Option String}
    (h : (s.process_paybill num amt company hn).2.1 = false) :
    (s.process_paybill num amt company hn).1 = s := by
  rcases hE : s.process_paybill num amt company hn with ⟨s', ok, msg⟩
  rw [hE] at h
  simp only at h ⊢
  unfold process_paybill at hE
  dsimp only at hE
  split at hE
  · cases hE; rfl
  · split at hE
    · cases hE; rfl
    · split at hE
      · cases hE; simp at h
      · cases hE; rfl

theorem process_transfer_success {s : BankingSystem} {src_num tgt_num : String}
    {amt : ℚ} {hn : Option String}
    (h : (s.process_transfer src_num tgt_num amt hn).2.1 = true) :
    ∃ i src j tgt, s.is_logged_in = true ∧
      find_user_account_idx s.accounts (resolve_owner s hn) src_num = some i ∧
      s.accounts[i]? = some src ∧
      find_account_by_number_idx s.accounts tgt_num = some j ∧
      s.accounts[j]? = some tgt ∧
      validate_transfer (some src) (some tgt) amt s.is_admin s.session_transfers
        = none ∧
      (s.process_transfer src_num tgt_num amt hn).1 =
        { s with
            accounts := (s.accounts.set i (src.withdraw amt).1).set j
              ((if i = j then (src.withdraw amt).1 else tgt).deposit amt),
            session_transfers := s.session_transfers + amt,
            transactions := s.transactions
              ++ [Transaction.create_transfer ((resolve_owner s hn).getD "") src_num
                    tgt_num amt] } := by
  rcases hE : s.process_transfer src_num tgt_num amt hn with ⟨s', ok, msg⟩
  rw [hE] at h
  simp only at h ⊢
  unfold process_transfer at hE
  dsimp only at hE
  split at hE
  · cases hE; simp at h
  · next hlog =>
    split at hE
    · cases hE; simp at h
    · next hval =>
      split at hE
      · next i src j hsidx hsacc htidx =>
        rw [hsidx] at hval hsacc
        simp only [Option.some_bind] at hval hsacc
        rw [htidx] at hval
        simp only [Option.some_bind] at hval
        rcases htgt : s.accounts[j]? with _ | tgt
        · rw [htgt] at hval
          simp [validate_transfer, hsacc] at hval
        · rw [htgt] at hval
          rw [hsacc] at hval
          have hjlt : j < s.accounts.length :=
            (List.getElem?_eq_some_iff.mp htgt).1
          have hjlt' : j < (s.accounts.set i (src.withdraw amt).1).length := by
            simpa using hjlt
          have hset : (s.accounts.set i (src.withdraw amt).1)[j]? =
              some (if i = j then (src.withdraw amt).1 else tgt) := by
            by_cases hij : i = j
            · subst hij
              simp [List.getElem?_set_self hjlt]
            · simp [List.getElem?_set_ne hij, htgt, hij]
          rw [hset] at hE
          cases hE
          exact ⟨i, src, j, tgt, by simpa using hlog, hsidx, hsacc, htidx, htgt,
            hval, rfl⟩
      · cases hE; simp at h

theorem process_transfer_fail {s : BankingSystem} {src_num tgt_num : String}
    {amt : ℚ} {hn : Option String}
    (h : (s.process_transfer src_num tgt_num amt hn).2.1 = false) :
    (s.process_transfer src_num tgt_num amt hn).1 = s := by
  rcases hE : s.process_transfer src_num tgt_num amt hn with ⟨s', ok, msg⟩
  rw [hE] at h
  simp only at h ⊢
  unfold process_transfer at hE
  dsimp only at hE
  split at hE
  · cases hE; rfl
  · split at hE
    · cases hE; rfl
    · split at hE
      · split at hE <;> [skip; skip] <;> cases hE <;> simp at h
      · cases hE; rfl

theorem process_deposit_success {s : BankingSystem} {num : String} {amt : ℚ}
    {hn : Option String} (h : (s.process_deposit num amt hn).2.1 = true) :
    s.is_logged_in = true ∧
      (s.process_deposit num amt hn).1 =
        { s with
            transactions := s.transactions
              ++ [Transaction.create_deposit ((resolve_owner s hn).getD "") num
                    amt] } := by
  rcases hE : s.process_deposit num amt hn with ⟨s', ok, msg⟩
  rw [hE] at h
  simp only at h ⊢
  unfold process_deposit at hE
  dsimp only at hE
  split at hE
  · cases hE; simp at h
  · next hlog =>
    split at hE
    · cases hE; simp at h
    · cases hE
      exact ⟨by simpa using hlog, rfl⟩

theorem process_deposit_fail {s : BankingSystem} {num : String} {amt : ℚ}
    {hn : Option String} (h : (s.process_deposit num amt hn).2.1 = false) :
    (s.process_deposit num amt hn).1 = s := by
  rcases hE : s.process_deposit num amt hn with ⟨s', ok, msg⟩
  rw [hE] at h
  simp only at h ⊢
  unfold process_deposit at hE
  dsimp only at hE
  split at hE
  · cases hE; rfl
  · split at hE
    · cases hE; rfl
    · cases hE; simp at h

theorem process_create_success {s : BankingSystem} {name : String} {bal : ℚ}
    (h : (s.process_create name bal).2.1 = true) :
    s.is_logged_in = true ∧ s.is_admin = true ∧
      validate_create name bal
        (find_account_by_number_idx s.accounts
          (generate_account_number s.accounts)).isSome = none ∧
      (s.process_create name bal).1 =
        { s with
            transactions := s.transactions
              ++ [Transaction.create_account name
                    (generate_account_number s.accounts) bal] } := by
  rcases hE : s.process_create name bal with ⟨s', ok, msg⟩
  rw [hE] at h
  simp only at h ⊢
  unfold process_create at hE
  dsimp only at hE
  split at hE
  · cases hE; simp at h
  · next hlog =>
    split at hE
    · cases hE; simp at h
    · next hadm =>
      split at hE
      · cases hE; simp at h
      · next hval =>
        cases hE
        exact ⟨by simpa using hlog, by simpa using hadm, hval, rfl⟩

theorem process_create_fail {s : BankingSystem} {name : String} {bal : ℚ}
    (h : (s.process_create name bal).2.1 = false) :
    (s.process_create name bal).1 = s := by
  rcases hE : s.process_create name bal with ⟨s', ok, msg⟩
  rw [hE] at h
  simp only at h ⊢
  unfold process_create at hE
  dsimp only at hE
  split at hE
  · cases hE; rfl
  · split at hE
    · cases hE; rfl
    · split at hE
      · cases hE; rfl
      · cases hE; simp at h

theorem process_delete_success {s : BankingSystem} {name num : String}
    (h : (s.process_delete name num).2.1 = true) :
    s.is_logged_in = true ∧ s.is_admin = true ∧
      (s.process_delete name num).1 =
        { s with
            accounts := s.accounts.filter
              (fun a => ¬(a.holder_name = name ∧ a.account_number = num)),
            transactions := s.transactions
              ++ [Transaction.create_delete name num] } := by
  rcases hE : s.process_delete name num with ⟨s', ok, msg⟩
  rw [hE] at h
  simp only at h ⊢
  unfold process_delete at hE
  dsimp only at hE
  split at hE
  · cases hE; simp at h
  · next hlog =>
    split at hE
    · cases hE; simp at h
    · next hadm =>
      split at hE
      · cases hE; simp at h
      · cases hE
        exact ⟨by simpa using hlog, by simpa using hadm, rfl⟩

theorem process_delete_fail {s : BankingSystem} {name num : String}
    (h : (s.process_delete name num).2.1 = false) :
    (s.process_delete name num).1 = s := by
  rcases hE : s.process_delete name num with ⟨s', ok, msg⟩
  rw [hE] at h
  simp only at h ⊢
  unfold process_delete at hE
  dsimp only at hE
  split at hE
  · cases hE; rfl
  · split at hE
    · cases hE; rfl
    · split at hE
      · cases hE; rfl
      · cases hE; simp at h

theorem process_disable_success {s : BankingSystem} {name num : String}
    (h : (s.process_disable name num).2.1 = true) :
    ∃ j a, s.is_logged_in = true ∧ s.is_admin = true ∧
      find_user_account_idx s.accounts (some name) num = some j ∧
      s.accounts[j]? = some a ∧
      (s.process_disable name num).1 =
        { s with
            accounts := s.accounts.set j a.disable,
            transactions := s.transactions
              ++ [Transaction.create_disable name num] } := by
  rcases hE : s.process_disable name num with ⟨s', ok, msg⟩
  rw [hE] at h
  simp only at h ⊢
  unfold process_disable at hE
  dsimp only at hE
  split at hE
  · cases hE; simp at h
  · next hlog =>
    split at hE
    · cases hE; simp at h
    · next hadm =>
      split at hE
      · cases hE; simp at h
      · split at hE
        · next j a hidx hacc =>
          cases hE
          rw [hidx] at hacc
          simp only [Option.some_bind] at hacc
          exact ⟨j, a, by simpa using hlog, by simpa using hadm, hidx, hacc, rfl⟩
        · cases hE; simp at h

theorem process_disable_fail {s : BankingSystem} {name num : String}
    (h : (s.process_disable name num).2.1 = false) :
    (s.process_disable name num).1 = s := by
  rcases hE : s.process_disable name num with ⟨s', ok, msg⟩
  rw [hE] at h
  simp only at h ⊢
  unfold process_disable at hE
  dsimp only at hE
  split at hE
  · cases hE; rfl
  · split at hE
    · cases hE; rfl
    · split at hE
      · cases hE; rfl
      · split at hE
        · cases hE; simp at h
        · cases hE; rfl

theorem process_changeplan_success {s : BankingSystem} {name num : String}
    (h : (s.process_changeplan name num).2.1 = true) :
    s.is_logged_in = true ∧ s.is_admin = true ∧
      (s.process_changeplan name num).1 =
        { s with
            transactions := s.transactions
              ++ [Transaction.create_changeplan name num] } := by
  rcases hE : s.process_changeplan name num with ⟨s', ok, msg⟩
  rw [hE] at h
  simp only at h ⊢
  unfold process_changeplan at hE
  dsimp only at hE
  split at hE
  · cases hE; simp at h
  · next hlog =>
    split at hE
    · cases hE; simp at h
    · next hadm =>
      split at hE
      · cases hE; simp at h
      · cases hE
        exact ⟨by simpa using hlog, by simpa using hadm, rfl⟩

theorem process_changeplan_fail {s : BankingSystem} {name num : String}
    (h : (s.process_changeplan name num).2.1 = false) :
    (s.process_changeplan name num).1 = s := by
  rcases hE : s.process_changeplan name num with ⟨s', ok, msg⟩
  rw [hE] at h
  simp only at h ⊢
  unfold process_changeplan at hE
  dsimp only at hE
  split at hE
  · cases hE; rfl
  · split at hE
    · cases hE; rfl
    · split at hE
      · cases hE; rfl
      · cases hE; simp at h

theorem process_login_success {s : BankingSystem} {mode : String}
    {user_name : Option String} (h : (s.process_login mode user_name).2.1 = true) :
    s.is_logged_in = false ∧
      ((s.process_login mode user_name).1 =
          { s with
              is_logged_in := true, is_admin := true, current_user := some "Admin" }
        ∨ (s.process_login mode user_name).1 =
          { s with
              is_logged_in := true, is_admin := false, current_user := user_name }) := by
  rcases hE : s.process_login mode user_name with ⟨s', ok, msg⟩
  rw [hE] at h
  simp only at h ⊢
  unfold process_login at hE
  split at hE
  · cases hE; simp at h
  · next hlog =>
    split at hE
    · cases hE
      exact ⟨by simpa using hlog, Or.inl rfl⟩
    · split at hE
      · split at hE
        · cases hE; simp at h
        · cases hE
          exact ⟨by simpa using hlog, Or.inr rfl⟩
      · cases hE; simp at h

theorem process_login_fail {s : BankingSystem} {mode : String}
    {user_name : Option String} (h : (s.process_login mode user_name).2.1 = false) :
    (s.process_login mode user_name).1 = s := by
  rcases hE : s.process_login mode user_name with ⟨s', ok, msg⟩
  rw [hE] at h
  simp only at h ⊢
  unfold process_login at hE
  split at hE
  · cases hE; rfl
  · split at hE
    · cases hE; simp at h
    · split at hE
      · split at hE
        · cases hE; rfl
        · cases hE; simp at h
      · cases hE; rfl

theorem process_logout_success {s : BankingSystem}
    (h : s.process_logout.2.1 = true) :
    s.is_logged_in = true ∧
      s.process_logout.1 =
        { s with
            is_logged_in := false, is_admin := false, current_user := none,
            session_withdrawals := 0, session_transfers := 0,
            session_paybills := 0 } := by
  rcases hE : s.process_logout with ⟨s', ok, msg⟩
  rw [hE] at h
  simp only at h ⊢
  unfold process_logout at hE
  split at hE
  · cases hE; simp at h
  · next hlog =>
    cases hE
    exact ⟨by simpa using hlog, rfl⟩

theorem process_logout_fail {s : BankingSystem}
    (h : s.process_logout.2.1 = false) :
    s.process_logout.1 = s := by
  rcases hE : s.process_logout with ⟨s', ok, msg⟩
  rw [hE] at h
  simp only at h ⊢
  unfold process_logout at hE
  split at hE
  · cases hE; rfl
  · cases hE; simp at h

end BankingSystem

/-! ## Reachability invariant -/

theorem goodCode_create_withdrawal {n num : String} {amt : ℚ} :
    GoodCode (Transaction.create_withdrawal n num amt) := by
  simp [GoodCode, Transaction.create_withdrawal]

theorem goodCode_create_transfer {n f t : String} {amt : ℚ} :
    GoodCode (Transaction.create_transfer n f t amt) := by
  simp [GoodCode, Transaction.create_transfer]

theorem goodCode_create_paybill {n num c : String} {amt : ℚ} :
    GoodCode (Transaction.create_paybill n num amt c) := by
  simp [GoodCode, Transaction.create_paybill]

theorem goodCode_create_deposit {n num : String} {amt : ℚ} :
    GoodCode (Transaction.create_deposit n num amt) := by
  simp [GoodCode, Transaction.create_deposit]

theorem goodCode_create_account {n num : String} {bal : ℚ} :
    GoodCode (Transaction.create_account n num bal) := by
  simp [GoodCode, Transaction.create_account]

theorem goodCode_create_delete {n num : String} :
    GoodCode (Transaction.create_delete n num) := by
  simp [GoodCode, Transaction.create_delete]

theorem goodCode_create_disable {n num : String} :
    GoodCode (Transaction.create_disable n num) := by
  simp [GoodCode, Transaction.create_disable]

theorem goodCode_create_changeplan {n num : String} :
    GoodCode (Transaction.create_changeplan n num) := by
  simp [GoodCode, Transaction.create_changeplan]

theorem goodCode_append {ts : List Transaction} {t : Transaction}
    (hts : ∀ u ∈ ts, GoodCode u) (ht : GoodCode t) :
    ∀ u ∈ ts ++ [t], GoodCode u := by
  intro u hu
  rcases List.mem_append.mp hu with h | h
  · exact hts u h
  · rcases List.mem_singleton.mp h with rfl
    exact ht

theorem Inv_startState (accounts : List Account) : Inv (startState accounts) := by
  refine ⟨fun _ => ⟨rfl, rfl, rfl⟩, fun _ => ?_, ?_⟩
  · refine ⟨?_, ?_, ?_⟩ <;>
      norm_num [startState, BankingSystem.init, MAX_WITHDRAWAL_STANDARD,
        MAX_TRANSFER_STANDARD, MAX_PAYBILL_STANDARD]
  · intro t ht
    simp [startState, BankingSystem.init] at ht

theorem Inv_applyOp {s : BankingSystem} (op : Op) (hs : Inv s) :
    Inv (applyOp s op).1 := by
  obtain ⟨h0, hcap, htx⟩ := hs
  cases op with
  | login mode user_name =>
    simp only [applyOp]
    cases hok : (s.process_login mode user_name).2.1 with
    | false => rw [BankingSystem.process_login_fail hok]; exact ⟨h0, hcap, htx⟩
    | true =>
      obtain ⟨hlo, hshape⟩ := BankingSystem.process_login_success hok
      obtain ⟨hw, ht, hp⟩ := h0 hlo
      rcases hshape with hsh | hsh <;> rw [hsh]
      · exact ⟨fun habs => by simp at habs, fun habs => by simp at habs, htx⟩
      · refine ⟨fun habs => by simp at habs, fun _ => ?_, htx⟩
        refine ⟨?_, ?_, ?_⟩ <;>
          simp only [hw, ht, hp] <;>
          norm_num [MAX_WITHDRAWAL_STANDARD, MAX_TRANSFER_STANDARD,
            MAX_PAYBILL_STANDARD]
  | logout =>
    simp only [applyOp]
    cases hok : s.process_logout.2.1 with
    | false => rw [BankingSystem.process_logout_fail hok]; exact ⟨h0, hcap, htx⟩
    | true =>
      obtain ⟨hli, hshape⟩ := BankingSystem.process_logout_success hok
      rw [hshape]
      refine ⟨fun _ => ⟨rfl, rfl, rfl⟩, fun _ => ?_, htx⟩
      refine ⟨?_, ?_, ?_⟩ <;>
        norm_num [MAX_WITHDRAWAL_STANDARD, MAX_TRANSFER_STANDARD,
          MAX_PAYBILL_STANDARD]
  | withdrawal num amt hn =>
    simp only [applyOp]
    cases hok : (s.process_withdrawal num amt hn).2.1 with
    | false => rw [BankingSystem.process_withdrawal_fail hok]; exact ⟨h0, hcap, htx⟩
    | true =>
      obtain ⟨j, a, hlog, hidx, hacc, hval, hshape⟩ :=
        BankingSystem.process_withdrawal_success hok
      obtain ⟨-, -, hcapf, -⟩ := validate_withdrawal_none_inv hval
      rw [hshape]
      refine ⟨fun habs => ?_, fun hadm => ?_, goodCode_append htx goodCode_create_withdrawal⟩
      · simp only at habs
        rw [hlog] at habs
        cases habs
      · simp only at hadm ⊢
        exact ⟨hcapf hadm, (hcap hadm).2.1, (hcap hadm).2.2⟩
  | transfer src_num tgt_num amt hn =>
    simp only [applyOp]
    cases hok : (s.process_transfer src_num tgt_num amt hn).2.1 with
    | false => rw [BankingSystem.process_transfer_fail hok]; exact ⟨h0, hcap, htx⟩
    | true =>
      obtain ⟨i, src, j, tgt, hlog, hsidx, hsacc, htidx, htgt, hval, hshape⟩ :=
        BankingSystem.process_transfer_success hok
      obtain ⟨-, -, -, hcapf, -⟩ := validate_transfer_none_inv hval
      rw [hshape]
      refine ⟨fun habs => ?_, fun hadm => ?_, goodCode_append htx goodCode_create_transfer⟩
      · simp only at habs
        rw [hlog] at habs
        cases habs
      · simp only at hadm ⊢
        exact ⟨(hcap hadm).1, hcapf hadm, (hcap hadm).2.2⟩
  | paybill num amt company hn =>
    simp only [applyOp]
    cases hok : (s.process_paybill num amt company hn).2.1 with
    | false => rw [BankingSystem.process_paybill_fail hok]; exact ⟨h0, hcap, htx⟩
    | true =>
      obtain ⟨j, a, hlog, hidx, hacc, hval, hshape⟩ :=
        BankingSystem.process_paybill_success hok
      obtain ⟨-, -, -, hcapf, -⟩ := validate_paybill_none_inv hval
      rw [hshape]
      refine ⟨fun habs => ?_, fun hadm => ?_, goodCode_append htx goodCode_create_paybill⟩
      · simp only at habs
        rw [hlog] at habs
        cases habs
      · simp only at hadm ⊢
        exact ⟨(hcap hadm).1, (hcap hadm).2.1, hcapf hadm⟩
  | deposit num amt hn =>
    simp only [applyOp]
    cases hok : (s.process_deposit num amt hn).2.1 with
    | false => rw [BankingSystem.process_deposit_fail hok]; exact ⟨h0, hcap, htx⟩
    | true =>
      obtain ⟨hlog, hshape⟩ := BankingSystem.process_deposit_success hok
      rw [hshape]
      refine ⟨fun habs => ?_, hcap, goodCode_append htx goodCode_create_deposit⟩
      simp only at habs
      rw [hlog] at habs
      cases habs
  | create name bal =>
    simp only [applyOp]
    cases hok : (s.process_create name bal).2.1 with
    | false => rw [BankingSystem.process_create_fail hok]; exact ⟨h0, hcap, htx⟩
    | true =>
      obtain ⟨hlog, hadm, hval, hshape⟩ := BankingSystem.process_create_success hok
      rw [hshape]
      refine ⟨fun habs => ?_, hcap, goodCode_append htx goodCode_create_account⟩
      simp only at habs
      rw [hlog] at habs
      cases habs
  | delete name num =>
    simp only [applyOp]
    cases hok : (s.process_delete name num).2.1 with
    | false => rw [BankingSystem.process_delete_fail hok]; exact ⟨h0, hcap, htx⟩
    | true =>
      obtain ⟨hlog, hadm, hshape⟩ := BankingSystem.process_delete_success hok
      rw [hshape]
      refine ⟨fun habs => ?_, hcap, goodCode_append htx goodCode_create_delete⟩
      simp only at habs
      rw [hlog] at habs
      cases habs
  | disable name num =>
    simp only [applyOp]
    cases hok : (s.process_disable name num).2.1 with
    | false => rw [BankingSystem.process_disable_fail hok]; exact ⟨h0, hcap, htx⟩
    | true =>
      obtain ⟨j, a, hlog, hadm, hidx, hacc, hshape⟩ :=
        BankingSystem.process_disable_success hok
      rw [hshape]
      refine ⟨fun habs => ?_, hcap, goodCode_append htx goodCode_create_disable⟩
      simp only at habs
      rw [hlog] at habs
      cases habs
  | changeplan name num =>
    simp only [applyOp]
    cases hok : (s.process_changeplan name num).2.1 with
    | false => rw [BankingSystem.process_changeplan_fail hok]; exact ⟨h0, hcap, htx⟩
    | true =>
      obtain ⟨hlog, hadm, hshape⟩ := BankingSystem.process_changeplan_success hok
      rw [hshape]
      refine ⟨fun habs => ?_, hcap, goodCode_append htx goodCode_create_changeplan⟩
      simp only at habs
      rw [hlog] at habs
      cases habs

theorem Inv_runOps {s : BankingSystem} (hs : Inv s) (ops : List Op) :
    Inv (runOps s ops) := by
  induction ops generalizing s with
  | nil => exact hs
  | cons op ops ih => exact ih (Inv_applyOp op hs)

theorem Inv_reachable (accounts : List Account) (ops : List Op) :
    Inv (runOps (startState accounts) ops) :=
  Inv_runOps (Inv_startState accounts) ops

/-! ## Serialization lemmas -/

theorem join_cons_str (a : String) (l : List String) :
    String.join (a :: l) = a ++ String.join l := by
  apply String.ext
  rw [String.join_eq, String.join_eq]
  simp

theorem intercalate_go_newline (l : List String) (acc : String) :
    String.intercalate.go acc "\n" l ++ "\n"
      = acc ++ "\n" ++ String.join (l.map (fun x => x ++ "\n")) := by
  induction l generalizing acc with
  | nil =>
    show acc ++ "\n" = acc ++ "\n" ++ String.join []
    rw [show String.join ([] : List String) = "" from rfl, String.append_empty]
  | cons b bs ih =>
    show String.intercalate.go (acc ++ "\n" ++ b) "\n" bs ++ "\n" = _
    rw [ih]
    simp [join_cons_str, String.append_assoc]

theorem intercalate_newline (l : List String) (h : l ≠ []) :
    String.intercalate "\n" l ++ "\n" = String.join (l.map (fun x => x ++ "\n")) := by
  cases l with
  | nil => cases h rfl
  | cons a as =>
    show String.intercalate.go a "\n" as ++ "\n" = _
    rw [intercalate_go_newline]
    simp [join_cons_str, String.append_assoc]

theorem to_file_string_take_two {t : Transaction} (h : GoodCode t) :
    t.to_file_string.data.take 2 = t.code.data := by
  have hlen : t.code.data.length = 2 := by
    simp only [GoodCode, List.mem_cons, List.not_mem_nil, or_false] at h
    rcases h with h | h | h | h | h | h | h | h <;> rw [h] <;> rfl
  rw [Transaction.to_file_string]
  simp only [String.data_append, List.append_assoc]
  rw [List.take_append_of_le_length (by omega)]
  rw [← hlen, List.take_length]

theorem to_file_string_ne_end {t : Transaction} (h : GoodCode t) :
    t.to_file_string ≠ Transaction.create_end_session.to_file_string := by
  intro heq
  have hd := congrArg (fun s => s.data.take 2) heq
  simp only at hd
  rw [to_file_string_take_two h] at hd
  have hend : Transaction.create_end_session.to_file_string.data.take 2
      = ['0', '0'] := by
    set_option maxRecDepth 4096 in decide
  rw [hend] at hd
  simp only [GoodCode, List.mem_cons, List.not_mem_nil, or_false] at h
  rcases h with h | h | h | h | h | h | h | h <;> rw [h] at hd <;> cases hd

/-! ## Decimal string round-trip lemmas -/

theorem digitChar_toNat {n : Nat} (h : n < 10) : (digitChar n).toNat = 48 + n := by
  interval_cases n <;> decide

theorem digitChar_isDigit {n : Nat} (h : n < 10) : (digitChar n).isDigit = true := by
  interval_cases n <;> decide

theorem natDigitsRev_ne_nil (n : Nat) : natDigitsRev n ≠ [] := by
  rw [natDigitsRev]
  split <;> simp

theorem natDigitsRev_all_digit (n : Nat) :
    (natDigitsRev n).all Char.isDigit = true := by
  induction n using Nat.strong_induction_on with
  | _ n ih =>
    rw [natDigitsRev]
    split
    · next h => simp [digitChar_isDigit h]
    · next h =>
      have h10 : n % 10 < 10 := Nat.mod_lt _ (by omega)
      simp [digitChar_isDigit h10,
        ih (n / 10) (Nat.div_lt_self (by omega) (by omega))]

theorem natDigitsRev_foldr (n : Nat) :
    (natDigitsRev n).foldr (fun c acc => 10 * acc + (c.toNat - 48)) 0 = n := by
  induction n using Nat.strong_induction_on with
  | _ n ih =>
    rw [natDigitsRev]
    split
    · next h =>
      simp [digitChar_toNat h]
    · next h =>
      have h10 : n % 10 < 10 := Nat.mod_lt _ (by omega)
      simp only [List.foldr_cons,
        ih (n / 10) (Nat.div_lt_self (by omega) (by omega)), digitChar_toNat h10]
      omega

theorem digitsVal_natToString (n : Nat) :
    digitsVal (natToString n).data = n := by
  show digitsVal (natDigitsRev n).reverse = n
  rw [digitsVal, List.foldl_reverse]
  exact natDigitsRev_foldr n

theorem digitsVal_leading_zeros (k : Nat) (cs : List Char) :
    digitsVal (List.replicate k '0' ++ cs) = digitsVal cs := by
  induction k with
  | zero => rfl
  | succ k ih =>
    simp only [List.replicate_succ, List.cons_append, digitsVal, List.foldl_cons]
    have h0 : 10 * 0 + ('0'.toNat - 48) = 0 := by decide
    rw [h0]
    exact ih

theorem isDigit_ne_minus {c : Char} (h : c.isDigit = true) : ¬ c = '-' := by
  intro hc
  rw [hc] at h
  cases h

theorem isDigit_ne_plus {c : Char} (h : c.isDigit = true) : ¬ c = '+' := by
  intro hc
  rw [hc] at h
  cases h

theorem pyInt?_digits (cs : List Char) (h1 : cs ≠ [])
    (h2 : cs.all Char.isDigit = true) :
    pyInt? (String.mk cs) = some ((digitsVal cs : Nat) : Int) := by
  cases cs with
  | nil => cases h1 rfl
  | cons c rest =>
    have hc : c.isDigit = true := by
      simp only [List.all_cons, Bool.and_eq_true] at h2
      exact h2.1
    show pyInt? ⟨c :: rest⟩ = _
    rw [pyInt?]
    simp only [if_neg (isDigit_ne_minus hc), if_neg (isDigit_ne_plus hc), if_pos h2]

theorem intToPyString_pos {n : Int} (h : 0 < n) :
    intToPyString n = natToString n.natAbs := by
  rw [intToPyString, if_neg (by omega)]

theorem pyZfill_digits_data (s : String) (hne : s.data ≠ [])
    (hdig : s.data.all Char.isDigit = true) (w : Nat) :
    (pyZfill s w).data = List.replicate (w - s.length) '0' ++ s.data := by
  rw [pyZfill]
  split
  · next hw =>
    have : w - s.length = 0 := by omega
    rw [this]
    rfl
  · next hw =>
    rcases hs : s.data with _ | ⟨c, rest⟩
    · cases hne hs
    · have hc : c.isDigit = true := by
        rw [hs] at hdig
        simp only [List.all_cons, Bool.and_eq_true] at hdig
        exact hdig.1
      simp only [hs]
      rw [if_neg (by
        rintro (hcm | hcp)
        · exact isDigit_ne_minus hc hcm
        · exact isDigit_ne_plus hc hcp)]

theorem pyInt?_zfill_natToString (n : Nat) (w : Nat) :
    pyInt? (pyZfill (natToString n) w) = some ((n : Nat) : Int) := by
  have hne : (natToString n).data ≠ [] := by
    show (natDigitsRev n).reverse ≠ []
    simp [natDigitsRev_ne_nil n]
  have hdig : (natToString n).data.all Char.isDigit = true := by
    show ((natDigitsRev n).reverse.all Char.isDigit) = true
    rw [List.all_reverse]
    exact natDigitsRev_all_digit n
  have hdata := pyZfill_digits_data (natToString n) hne hdig w
  have hall : ((pyZfill (natToString n) w).data).all Char.isDigit = true := by
    rw [hdata, List.all_append]
    simp only [Bool.and_eq_true]
    constructor
    · simp [List.all_eq_true]
    · exact hdig
  have hne2 : (pyZfill (natToString n) w).data ≠ [] := by
    rw [hdata]
    intro habs
    rcases List.append_eq_nil.mp habs with ⟨-, h2⟩
    exact hne h2
  have := pyInt?_digits (pyZfill (natToString n) w).data hne2 hall
  rw [show String.mk (pyZfill (natToString n) w).data = pyZfill (natToString n) w
    from rfl] at this
  rw [this, hdata, digitsVal_leading_zeros, digitsVal_natToString]

/-! ## Maximum-account-number lemmas -/

namespace BankingSystem

theorem maxAccountNumberStep_ge (m : Int) (a : Account) :
    m ≤ maxAccountNumberStep m a := by
  rw [maxAccountNumberStep]
  split
  · exact le_refl m
  · split
    · omega
    · exact le_refl m

theorem foldl_maxAccountNumberStep_ge_init (accounts : List Account) (init : Int) :
    init ≤ accounts.foldl maxAccountNumberStep init := by
  induction accounts generalizing init with
  | nil => exact le_refl init
  | cons a rest ih =>
    exact le_trans (maxAccountNumberStep_ge init a) (ih (maxAccountNumberStep init a))

theorem foldl_maxAccountNumberStep_bound {accounts : List Account} {init : Int}
    {a : Account} (ha : a ∈ accounts) {v : Int}
    (hv : pyInt? a.account_number = some v) :
    v ≤ accounts.foldl maxAccountNumberStep init := by
  induction accounts generalizing init with
  | nil => cases ha
  | cons b rest ih =>
    rcases List.mem_cons.mp ha with rfl | hmem
    · refine le_trans ?_ (foldl_maxAccountNumberStep_ge_init rest _)
      have hstep : maxAccountNumberStep init a = if init < v then v else init := by
        rw [maxAccountNumberStep, hv]
      rw [hstep]
      split <;> omega
    · exact ih hmem

theorem generate_account_number_fresh (accounts : List Account) :
    BankingSystem.find_account_by_number_idx accounts
      (generate_account_number accounts) = none := by
  set M : Int := accounts.foldl maxAccountNumberStep 0 with hM
  have hM0 : 0 ≤ M := foldl_maxAccountNumberStep_ge_init accounts 0
  have hparse : pyInt? (generate_account_number accounts) = some (M + 1) := by
    rw [generate_account_number]
    rw [← hM, intToPyString_pos (by omega), pyInt?_zfill_natToString]
    congr 1
    omega
  cases hfind : BankingSystem.find_account_by_number_idx accounts
      (generate_account_number accounts) with
  | none => rfl
  | some j =>
    exfalso
    rcases BankingSystem.find_account_by_number_idx_some hfind with ⟨a, ha, hnum⟩
    have hmem : a ∈ accounts := List.getElem?_mem ha
    have : (M + 1 : Int) ≤ M := by
      refine foldl_maxAccountNumberStep_bound hmem ?_
      rw [hnum, hparse]
    omega

end BankingSystem

/-! ## Small helper lemmas for the claim theorems -/

theorem Account.withdraw_of_le {a : Account} {amt : ℚ} (h : ¬ a.balance < amt) :
    (a.withdraw amt).1 = { a with balance := a.balance - amt } := by
  rw [Account.withdraw, if_neg h]

theorem list_set_getElem?_self {α : Type} {l : List α} {i : Nat} {a : α}
    (h : l[i]? = some a) : l.set i a = l := by
  induction l generalizing i with
  | nil => simp at h
  | cons x rest ih =>
    cases i with
    | zero =>
      simp only [List.getElem?_cons_zero, Option.some.injEq] at h
      rw [← h]
      rfl
    | succ i =>
      simp only [List.getElem?_cons_succ] at h
      simp [ih h]

/-! ## Claim theorems -/

unseal Rat.add Rat.sub Rat.mul

open BankingSystem

/-- C1: within one standard (non-admin) session the running totals for
withdrawals, transfers and paybills never exceed 500, 1000 and 2000
respectively (an invariant of every reachable controller state), while the
three validators ignore the session total entirely when `is_admin` is true,
so admin sessions are never capped. -/
theorem C1_standard_session_caps_admin_exempt (accounts : List Account)
    (ops : List Op) :
    ((runOps (startState accounts) ops).is_admin = false →
        (runOps (startState accounts) ops).session_withdrawals
            ≤ MAX_WITHDRAWAL_STANDARD
          ∧ (runOps (startState accounts) ops).session_transfers
            ≤ MAX_TRANSFER_STANDARD
          ∧ (runOps (startState accounts) ops).session_paybills
            ≤ MAX_PAYBILL_STANDARD)
    ∧ (∀ (account : Option Account) (amount st st' : ℚ),
        validate_withdrawal account amount true st
          = validate_withdrawal account amount true st')
    ∧ (∀ (source target : Option Account) (amount st st' : ℚ),
        validate_transfer source target amount true st
          = validate_transfer source target amount true st')
    ∧ (∀ (account : Option Account) (amount : ℚ) (company : String) (st st' : ℚ),
        validate_paybill account amount company true st
          = validate_paybill account amount company true st') := by
  refine ⟨fun hadm => (Inv_reachable accounts ops).2.1 hadm, ?_, ?_, ?_⟩
  · intro account amount st st'
    cases account <;> simp [validate_withdrawal]
  · intro source target amount st st'
    cases source <;> cases target <;> simp [validate_transfer]
  · intro account amount company st st'
    cases account <;> simp [validate_paybill]

theorem C1_standard_session_caps_admin_exempt_witness :
    (runOps (startState [⟨"00001", "Alice", "A", 1000⟩])
        [.login "standard" (some "Alice"), .withdrawal "00001" 400 none]).is_admin
      = false
    ∧ (runOps (startState [⟨"00001", "Alice", "A", 1000⟩])
        [.login "standard" (some "Alice"),
          .withdrawal "00001" 400 none]).session_withdrawals
      ≤ MAX_WITHDRAWAL_STANDARD :=
  ⟨by decide,
    ((C1_standard_session_caps_admin_exempt [⟨"00001", "Alice", "A", 1000⟩]
      [.login "standard" (some "Alice"), .withdrawal "00001" 400 none]).1
      (by decide)).1⟩

/-- C2: `process_withdrawal`, `process_transfer` and `process_paybill` only
return success when the resolved (source) account's balance covers the
amount, and a successful withdrawal leaves that account with exactly its
previous balance minus the amount. -/
theorem C2_no_overdraft_exact_debit (s : BankingSystem) (num src_num tgt_num
    company : String) (amt : ℚ) (hn : Option String) :
    ((s.process_withdrawal num amt hn).2.1 = true →
      ∃ j a, find_user_account_idx s.accounts (resolve_owner s hn) num = some j
        ∧ s.accounts[j]? = some a ∧ amt ≤ a.balance
        ∧ (s.process_withdrawal num amt hn).1.accounts[j]?
            = some { a with balance := a.balance - amt })
    ∧ ((s.process_transfer src_num tgt_num amt hn).2.1 = true →
      ∃ i a, find_user_account_idx s.accounts (resolve_owner s hn) src_num = some i
        ∧ s.accounts[i]? = some a ∧ amt ≤ a.balance)
    ∧ ((s.process_paybill num amt company hn).2.1 = true →
      ∃ j a, find_user_account_idx s.accounts (resolve_owner s hn) num = some j
        ∧ s.accounts[j]? = some a ∧ amt ≤ a.balance) := by
  refine ⟨fun h => ?_, fun h => ?_, fun h => ?_⟩
  · obtain ⟨j, a, hlog, hidx, hacc, hval, hshape⟩ := process_withdrawal_success h
    obtain ⟨-, -, -, hbal⟩ := validate_withdrawal_none_inv hval
    refine ⟨j, a, hidx, hacc, hbal, ?_⟩
    rw [hshape]
    simp only
    rw [Account.withdraw_of_le (not_lt.mpr hbal)]
    exact List.getElem?_set_self (List.getElem?_eq_some_iff.mp hacc).1
  · obtain ⟨i, src, j, tgt, hlog, hsidx, hsacc, htidx, htgt, hval, hshape⟩ :=
      process_transfer_success h
    obtain ⟨-, -, -, -, hbal⟩ := validate_transfer_none_inv hval
    exact ⟨i, src, hsidx, hsacc, hbal⟩
  · obtain ⟨j, a, hlog, hidx, hacc, hval, hshape⟩ := process_paybill_success h
    obtain ⟨-, -, -, -, hbal⟩ := validate_paybill_none_inv hval
    exact ⟨j, a, hidx, hacc, hbal⟩

theorem C2_no_overdraft_exact_debit_witness :
    ((startState [⟨"00001", "Alice", "A", 1000⟩]).process_login "standard"
        (some "Alice")).1.process_withdrawal "00001" 100 none |>.2.1 = true
    ∧ ∃ j a,
        find_user_account_idx
            (((startState [⟨"00001", "Alice", "A", 1000⟩]).process_login "standard"
              (some "Alice")).1).accounts
            (resolve_owner
              (((startState [⟨"00001", "Alice", "A", 1000⟩]).process_login "standard"
                (some "Alice")).1) none) "00001" = some j
        ∧ (((startState [⟨"00001", "Alice", "A", 1000⟩]).process_login "standard"
              (some "Alice")).1).accounts[j]? = some a
        ∧ (100 : ℚ) ≤ a.balance
        ∧ ((((startState [⟨"00001", "Alice", "A", 1000⟩]).process_login "standard"
              (some "Alice")).1).process_withdrawal "00001" 100
              none).1.accounts[j]?
            = some { a with balance := a.balance - 100 } :=
  ⟨by decide,
    (C2_no_overdraft_exact_debit
      (((startState [⟨"00001", "Alice", "A", 1000⟩]).process_login "standard"
        (some "Alice")).1) "00001" "x" "y" "EC" 100 none).1 (by decide)⟩

/-- C3: `process_deposit` and `process_create` never change the account
list (hence no in-memory balance), on success they change the state only by
appending exactly one transaction record, and on failure they change
nothing. -/
theorem C3_deposit_create_frame (s : BankingSystem) (num : String) (amt : ℚ)
    (hn : Option String) (name : String) (bal : ℚ) :
    ((s.process_deposit num amt hn).1.accounts = s.accounts)
    ∧ ((s.process_deposit num amt hn).2.1 = true →
        ∃ t, (s.process_deposit num amt hn).1
          = { s with transactions := s.transactions ++ [t] })
    ∧ ((s.process_deposit num amt hn).2.1 = false →
        (s.process_deposit num amt hn).1 = s)
    ∧ ((s.process_create name bal).1.accounts = s.accounts)
    ∧ ((s.process_create name bal).2.1 = true →
        ∃ t, (s.process_create name bal).1
          = { s with transactions := s.transactions ++ [t] })
    ∧ ((s.process_create name bal).2.1 = false →
        (s.process_create name bal).1 = s) := by
  refine ⟨?_, fun h => ?_, fun h => process_deposit_fail h, ?_,
    fun h => ?_, fun h => process_create_fail h⟩
  · cases hok : (s.process_deposit num amt hn).2.1 with
    | false => rw [process_deposit_fail hok]
    | true =>
      obtain ⟨-, hshape⟩ := process_deposit_success hok
      rw [hshape]
  · obtain ⟨-, hshape⟩ := process_deposit_success h
    exact ⟨_, hshape⟩
  · cases hok : (s.process_create name bal).2.1 with
    | false => rw [process_create_fail hok]
    | true =>
      obtain ⟨-, -, -, hshape⟩ := process_create_success hok
      rw [hshape]
  · obtain ⟨-, -, -, hshape⟩ := process_create_success h
    exact ⟨_, hshape⟩

theorem C3_deposit_create_frame_witness :
    (((startState [⟨"00001", "Alice", "A", 1000⟩]).process_login "standard"
        (some "Alice")).1.process_deposit "00001" 100 none).2.1 = true
    ∧ ∃ t, (((startState [⟨"00001", "Alice", "A", 1000⟩]).process_login "standard"
        (some "Alice")).1.process_deposit "00001" 100 none).1
      = { ((startState [⟨"00001", "Alice", "A", 1000⟩]).process_login "standard"
            (some "Alice")).1 with
          transactions :=
            (((startState [⟨"00001", "Alice", "A", 1000⟩]).process_login "standard"
              (some "Alice")).1).transactions ++ [t] } :=
  ⟨by decide,
    (C3_deposit_create_frame
      (((startState [⟨"00001", "Alice", "A", 1000⟩]).process_login "standard"
        (some "Alice")).1) "00001" 100 none "Bob" 0).2.1 (by decide)⟩

/-- C4 (counterexample): after a deposit, a logout and a second successful
standard login, the transaction log is not empty — `process_login` never
clears it, contradicting the claim that the log is empty after every
successful login. -/
theorem C4_second_login_keeps_log_counterexample :
    ((runOps (startState [⟨"00001", "Alice", "A", 1000⟩])
        [.login "standard" (some "Alice"), .deposit "00001" 100 none,
          .logout]).process_login "standard" (some "Alice")).2.1 = true
    ∧ ((runOps (startState [⟨"00001", "Alice", "A", 1000⟩])
        [.login "standard" (some "Alice"), .deposit "00001" 100 none,
          .logout]).process_login "standard" (some "Alice")).1.transactions
      ≠ [] := by
  exact ⟨by decide, by decide⟩

/-- C4 (amended): `process_login` never clears the transaction log (and
leaves the account list unchanged); the log, like the account list,
persists across logins and logouts within one process run — no controller
operation removes entries from it, every operation at most appends. -/
theorem C4_amended_log_never_cleared (s : BankingSystem) (mode : String)
    (user : Option String) (op : Op) :
    ((s.process_login mode user).1.transactions = s.transactions
      ∧ (s.process_login mode user).1.accounts = s.accounts)
    ∧ ∃ ts, (applyOp s op).1.transactions = s.transactions ++ ts := by
  constructor
  · cases hok : (s.process_login mode user).2.1 with
    | false => rw [process_login_fail hok]; exact ⟨rfl, rfl⟩
    | true =>
      obtain ⟨-, hsh | hsh⟩ := process_login_success hok <;> rw [hsh] <;>
        exact ⟨rfl, rfl⟩
  · cases op with
    | login mode' user' =>
      simp only [applyOp]
      cases hok : (s.process_login mode' user').2.1 with
      | false => exact ⟨[], by rw [process_login_fail hok]; simp⟩
      | true =>
        obtain ⟨-, hsh | hsh⟩ := process_login_success hok <;>
          exact ⟨[], by rw [hsh]; simp⟩
    | logout =>
      simp only [applyOp]
      cases hok : s.process_logout.2.1 with
      | false => exact ⟨[], by rw [process_logout_fail hok]; simp⟩
      | true =>
        obtain ⟨-, hsh⟩ := process_logout_success hok
        exact ⟨[], by rw [hsh]; simp⟩
    | withdrawal num amt hn =>
      simp only [applyOp]
      cases hok : (s.process_withdrawal num amt hn).2.1 with
      | false => exact ⟨[], by rw [process_withdrawal_fail hok]; simp⟩
      | true =>
        obtain ⟨j, a, -, -, -, -, hsh⟩ := process_withdrawal_success hok
        exact ⟨_, by rw [hsh]⟩
    | transfer src tgt amt hn =>
      simp only [applyOp]
      cases hok : (s.process_transfer src tgt amt hn).2.1 with
      | false => exact ⟨[], by rw [process_transfer_fail hok]; simp⟩
      | true =>
        obtain ⟨i, src', j, tgt', -, -, -, -, -, -, hsh⟩ :=
          process_transfer_success hok
        exact ⟨_, by rw [hsh]⟩
    | paybill num amt company hn =>
      simp only [applyOp]
      cases hok : (s.process_paybill num amt company hn).2.1 with
      | false => exact ⟨[], by rw [process_paybill_fail hok]; simp⟩
      | true =>
        obtain ⟨j, a, -, -, -, -, hsh⟩ := process_paybill_success hok
        exact ⟨_, by rw [hsh]⟩
    | deposit num amt hn =>
      simp only [applyOp]
      cases hok : (s.process_deposit num amt hn).2.1 with
      | false => exact ⟨[], by rw [process_deposit_fail hok]; simp⟩
      | true =>
        obtain ⟨-, hsh⟩ := process_deposit_success hok
        exact ⟨_, by rw [hsh]⟩
    | create name bal =>
      simp only [applyOp]
      cases hok : (s.process_create name bal).2.1 with
      | false => exact ⟨[], by rw [process_create_fail hok]; simp⟩
      | true =>
        obtain ⟨-, -, -, hsh⟩ := process_create_success hok
        exact ⟨_, by rw [hsh]⟩
    | delete name num =>
      simp only [applyOp]
      cases hok : (s.process_delete name num).2.1 with
      | false => exact ⟨[], by rw [process_delete_fail hok]; simp⟩
      | true =>
        obtain ⟨-, -, hsh⟩ := process_delete_success hok
        exact ⟨_, by rw [hsh]⟩
    | disable name num =>
      simp only [applyOp]
      cases hok : (s.process_disable name num).2.1 with
      | false => exact ⟨[], by rw [process_disable_fail hok]; simp⟩
      | true =>
        obtain ⟨j, a, -, -, -, -, hsh⟩ := process_disable_success hok
        exact ⟨_, by rw [hsh]⟩
    | changeplan name num =>
      simp only [applyOp]
      cases hok : (s.process_changeplan name num).2.1 with
      | false => exact ⟨[], by rw [process_changeplan_fail hok]; simp⟩
      | true =>
        obtain ⟨-, -, hsh⟩ := process_changeplan_success hok
        exact ⟨_, by rw [hsh]⟩

/-- C5: serializing the log of any reachable controller state yields the
join of N+1 newline-terminated lines, the last (and only) one of which is
the End-Session record line, whose record has code "00", a blank
20-character name, account number "00000" and amount 0. -/
theorem C5_transaction_file_shape (accounts : List Account) (ops : List Op) :
    generate_transaction_file (runOps (startState accounts) ops).transactions
      = String.join
          (((runOps (startState accounts) ops).transactions.map
              Transaction.to_file_string
            ++ [Transaction.create_end_session.to_file_string]).map
            (fun x => x ++ "\n"))
    ∧ ((runOps (startState accounts) ops).transactions.map
          Transaction.to_file_string
        ++ [Transaction.create_end_session.to_file_string]).length
      = (runOps (startState accounts) ops).transactions.length + 1
    ∧ ((runOps (startState accounts) ops).transactions.map
          Transaction.to_file_string
        ++ [Transaction.create_end_session.to_file_string]).getLast?
      = some Transaction.create_end_session.to_file_string
    ∧ ((runOps (startState accounts) ops).transactions.map
          Transaction.to_file_string
        ++ [Transaction.create_end_session.to_file_string]).count
        Transaction.create_end_session.to_file_string = 1
    ∧ Transaction.create_end_session.code = "00"
    ∧ Transaction.create_end_session.account_holder_name
        = String.mk (List.replicate 20 ' ')
    ∧ Transaction.create_end_session.account_number = "00000"
    ∧ Transaction.create_end_session.amount = 0 := by
  have hinv := (Inv_reachable accounts ops).2.2
  refine ⟨?_, by simp, List.getLast?_concat _, ?_, rfl, rfl, rfl, rfl⟩
  · rw [generate_transaction_file]
    exact intercalate_newline _ (by simp)
  · rw [List.count_append]
    have h0 : ((runOps (startState accounts) ops).transactions.map
        Transaction.to_file_string).count
          Transaction.create_end_session.to_file_string = 0 := by
      rw [List.count_eq_zero]
      intro hmem
      rcases List.mem_map.mp hmem with ⟨t, ht, heq⟩
      exact to_file_string_ne_end (hinv t ht) heq
    rw [h0]
    simp

/-- C6 (counterexample): a successful transfer whose source and destination
resolve to the same account (self-transfer) leaves the balance unchanged at
500 instead of decreasing it by the transferred amount 100, refuting the
claim that every successful transfer decreases the source balance by the
amount. -/
theorem C6_self_transfer_counterexample :
    ((runOps (startState [⟨"00001", "Alice", "A", 500⟩])
        [.login "standard" (some "Alice")]).process_transfer "00001" "00001" 100
        none).2.1 = true
    ∧ (((runOps (startState [⟨"00001", "Alice", "A", 500⟩])
        [.login "standard" (some "Alice")]).process_transfer "00001" "00001" 100
        none).1.accounts.map Account.balance) = [500]
    ∧ ¬ (((runOps (startState [⟨"00001", "Alice", "A", 500⟩])
        [.login "standard" (some "Alice")]).process_transfer "00001" "00001" 100
        none).1.accounts.map Account.balance) = [400] := by
  exact ⟨by decide, by decide, by decide⟩

/-- C6 (amended): a successful `process_transfer` whose resolved source and
destination are distinct immediately decreases the source balance by the
amount and increases the destination balance by the same amount; when they
resolve to the same account the account list is unchanged; in all cases the
appended transfer record's misc field equals the last two characters of the
destination number zero-padded to five digits (e.g. "02" for destination
"00002"). -/
theorem C6_amended_transfer_effect (s : BankingSystem)
    (src_num tgt_num : String) (amt : ℚ) (hn : Option String)
    (h : (s.process_transfer src_num tgt_num amt hn).2.1 = true) :
    ∃ i src j tgt,
      find_user_account_idx s.accounts (resolve_owner s hn) src_num = some i
      ∧ s.accounts[i]? = some src
      ∧ find_account_by_number_idx s.accounts tgt_num = some j
      ∧ s.accounts[j]? = some tgt
      ∧ (i ≠ j →
          (s.process_transfer src_num tgt_num amt hn).1.accounts[i]?
              = some { src with balance := src.balance - amt }
            ∧ (s.process_transfer src_num tgt_num amt hn).1.accounts[j]?
              = some { tgt with balance := tgt.balance + amt })
      ∧ (i = j →
          (s.process_transfer src_num tgt_num amt hn).1.accounts = s.accounts)
      ∧ (s.process_transfer src_num tgt_num amt hn).1.transactions
          = s.transactions
            ++ [Transaction.create_transfer ((resolve_owner s hn).getD "")
                  src_num tgt_num amt]
      ∧ (Transaction.create_transfer ((resolve_owner s hn).getD "") src_num
            tgt_num amt).misc
          = (pyZfill tgt_num 5).takeRight 2
      ∧ ((pyZfill "00002" 5).takeRight 2 = "02") := by
  obtain ⟨i, src, j, tgt, hlog, hsidx, hsacc, htidx, htgt, hval, hshape⟩ :=
    process_transfer_success h
  obtain ⟨-, -, -, -, hbal⟩ := validate_transfer_none_inv hval
  have hilt : i < s.accounts.length := (List.getElem?_eq_some_iff.mp hsacc).1
  have hjlt : j < s.accounts.length := (List.getElem?_eq_some_iff.mp htgt).1
  have hw : (src.withdraw amt).1 = { src with balance := src.balance - amt } :=
    Account.withdraw_of_le (not_lt.mpr hbal)
  refine ⟨i, src, j, tgt, hsidx, hsacc, htidx, htgt, fun hij => ?_, fun hij => ?_,
    ?_, rfl, by decide⟩
  · rw [hshape]
    simp only [if_neg hij]
    constructor
    · rw [List.getElem?_set_ne (fun hji => hij hji.symm),
        List.getElem?_set_self (by simpa using hilt), hw]
    · rw [List.getElem?_set_self (by simpa using hjlt)]
      rfl
  · subst hij
    rw [hshape]
    show (s.accounts.set i (src.withdraw amt).1).set i
        ((if i = i then (src.withdraw amt).1 else tgt).deposit amt) = s.accounts
    rw [if_pos rfl, List.set_set, hw]
    have hdep : ({ src with balance := src.balance - amt } : Account).deposit amt
        = src := by
      rw [Account.deposit]
      cases src
      simp
    rw [hdep]
    exact list_set_getElem?_self hsacc
  · rw [hshape]

theorem C6_amended_transfer_effect_witness :
    ((runOps (startState
        [⟨"00001", "Alice", "A", 500⟩, ⟨"00002", "Bob", "A", 300⟩])
        [.login "standard" (some "Alice")]).process_transfer "00001" "00002" 100
        none).2.1 = true
    ∧ ∃ i src j tgt,
        find_user_account_idx
            (runOps (startState
              [⟨"00001", "Alice", "A", 500⟩, ⟨"00002", "Bob", "A", 300⟩])
              [.login "standard" (some "Alice")]).accounts
            (resolve_owner
              (runOps (startState
                [⟨"00001", "Alice", "A", 500⟩, ⟨"00002", "Bob", "A", 300⟩])
                [.login "standard" (some "Alice")]) none) "00001" = some i
        ∧ (runOps (startState
              [⟨"00001", "Alice", "A", 500⟩, ⟨"00002", "Bob", "A", 300⟩])
              [.login "standard" (some "Alice")]).accounts[i]? = some src
        ∧ find_account_by_number_idx
            (runOps (startState
              [⟨"00001", "Alice", "A", 500⟩, ⟨"00002", "Bob", "A", 300⟩])
              [.login "standard" (some "Alice")]).accounts "00002" = some j
        ∧ (runOps (startState
              [⟨"00001", "Alice", "A", 500⟩, ⟨"00002", "Bob", "A", 300⟩])
              [.login "standard" (some "Alice")]).accounts[j]? = some tgt
        ∧ (i ≠ j →
            ((runOps (startState
                [⟨"00001", "Alice", "A", 500⟩, ⟨"00002", "Bob", "A", 300⟩])
                [.login "standard" (some "Alice")]).process_transfer "00001"
                "00002" 100 none).1.accounts[i]?
                = some { src with balance := src.balance - 100 }
              ∧ ((runOps (startState
                  [⟨"00001", "Alice", "A", 500⟩, ⟨"00002", "Bob", "A", 300⟩])
                  [.login "standard" (some "Alice")]).process_transfer "00001"
                  "00002" 100 none).1.accounts[j]?
                = some { tgt with balance := tgt.balance + 100 })
        ∧ (i = j →
            ((runOps (startState
                [⟨"00001", "Alice", "A", 500⟩, ⟨"00002", "Bob", "A", 300⟩])
                [.login "standard" (some "Alice")]).process_transfer "00001"
                "00002" 100 none).1.accounts
              = (runOps (startState
                  [⟨"00001", "Alice", "A", 500⟩, ⟨"00002", "Bob", "A", 300⟩])
                  [.login "standard" (some "Alice")]).accounts)
        ∧ ((runOps (startState
              [⟨"00001", "Alice", "A", 500⟩, ⟨"00002", "Bob", "A", 300⟩])
              [.login "standard" (some "Alice")]).process_transfer "00001"
              "00002" 100 none).1.transactions
            = (runOps (startState
                [⟨"00001", "Alice", "A", 500⟩, ⟨"00002", "Bob", "A", 300⟩])
                [.login "standard" (some "Alice")]).transactions
              ++ [Transaction.create_transfer
                    ((resolve_owner (runOps (startState
                      [⟨"00001", "Alice", "A", 500⟩, ⟨"00002", "Bob", "A", 300⟩])
                      [.login "standard" (some "Alice")]) none).getD "")
                    "00001" "00002" 100]
        ∧ (Transaction.create_transfer
              ((resolve_owner (runOps (startState
                [⟨"00001", "Alice", "A", 500⟩, ⟨"00002", "Bob", "A", 300⟩])
                [.login "standard" (some "Alice")]) none).getD "")
              "00001" "00002" 100).misc
            = (pyZfill "00002" 5).takeRight 2
        ∧ ((pyZfill "00002" 5).takeRight 2 = "02") :=
  ⟨by decide,
    C6_amended_transfer_effect
      (runOps (startState
        [⟨"00001", "Alice", "A", 500⟩, ⟨"00002", "Bob", "A", 300⟩])
        [.login "standard" (some "Alice")]) "00001" "00002" 100 none (by decide)⟩

/-- C7: after any successful `process_login` and after any successful
`process_logout` of a reachable controller state, all three session running
totals equal zero. -/
theorem C7_totals_zero_after_login_logout (accounts : List Account)
    (ops : List Op) (mode : String) (user : Option String) :
    (((runOps (startState accounts) ops).process_login mode user).2.1 = true →
      ((runOps (startState accounts) ops).process_login mode
          user).1.session_withdrawals = 0
      ∧ ((runOps (startState accounts) ops).process_login mode
          user).1.session_transfers = 0
      ∧ ((runOps (startState accounts) ops).process_login mode
          user).1.session_paybills = 0)
    ∧ ((runOps (startState accounts) ops).process_logout.2.1 = true →
      (runOps (startState accounts) ops).process_logout.1.session_withdrawals = 0
      ∧ (runOps (startState accounts) ops).process_logout.1.session_transfers = 0
      ∧ (runOps (startState accounts) ops).process_logout.1.session_paybills
        = 0) := by
  refine ⟨fun h => ?_, fun h => ?_⟩
  · obtain ⟨hlo, hsh⟩ := process_login_success h
    obtain ⟨hw, ht, hp⟩ := (Inv_reachable accounts ops).1 hlo
    rcases hsh with hsh | hsh <;> rw [hsh] <;> exact ⟨hw, ht, hp⟩
  · obtain ⟨-, hsh⟩ := process_logout_success h
    rw [hsh]
    exact ⟨rfl, rfl, rfl⟩

theorem C7_totals_zero_after_login_logout_witness :
    ((runOps (startState ([] : List Account)) []).process_login "admin"
        none).2.1 = true
    ∧ ((runOps (startState ([] : List Account)) []).process_login "admin"
        none).1.session_withdrawals = 0
    ∧ (runOps (startState ([] : List Account))
        [.login "admin" none]).process_logout.2.1 = true
    ∧ (runOps (startState ([] : List Account))
        [.login "admin" none]).process_logout.1.session_withdrawals = 0 :=
  ⟨by decide,
    ((C7_totals_zero_after_login_logout [] [] "admin" none).1 (by decide)).1,
    by decide,
    ((C7_totals_zero_after_login_logout [] [.login "admin" none] "x" none).2
      (by decide)).1⟩

/-- C8: the validators surface the first violated rule in the fixed order
existence, disabled status, domain checks (positive amount, company code),
session cap, balance sufficiency — in particular a withdrawal against a
disabled account with insufficient balance reports the disabled-account
error. -/
theorem C8_validator_rule_order (a : Account) (amount : ℚ) (is_admin : Bool)
    (st : ℚ) (company : String) :
    (∀ (amount' : ℚ) (ia : Bool) (st' : ℚ),
      validate_withdrawal none amount' ia st' = some "Account not found.")
    ∧ (a.is_disabled = true →
        validate_withdrawal (some a) amount is_admin st
          = some "Account is disabled.")
    ∧ (a.is_disabled = true → a.balance < amount →
        validate_withdrawal (some a) amount is_admin st
          = some "Account is disabled.")
    ∧ (a.is_disabled = false → amount ≤ 0 →
        validate_withdrawal (some a) amount is_admin st
          = some "Amount must be positive.")
    ∧ (a.is_disabled = false → 0 < amount → is_admin = false →
        MAX_WITHDRAWAL_STANDARD < st + amount →
        validate_withdrawal (some a) amount is_admin st
          = some "Maximum withdrawal per session is $500.00.")
    ∧ (a.is_disabled = false → 0 < amount →
        (is_admin = false → st + amount ≤ MAX_WITHDRAWAL_STANDARD) →
        a.balance < amount →
        validate_withdrawal (some a) amount is_admin st
          = some "Insufficient funds.")
    ∧ (∀ (amount' : ℚ) (c : String) (ia : Bool) (st' : ℚ),
      validate_paybill none amount' c ia st' = some "Account not found.")
    ∧ (a.is_disabled = true →
        validate_paybill (some a) amount company is_admin st
          = some "Account is disabled.")
    ∧ (a.is_disabled = false → company ∉ VALID_COMPANIES →
        validate_paybill (some a) amount company is_admin st
          = some "Invalid company code. Valid codes: EC, CQ, FI.")
    ∧ (a.is_disabled = false → company ∈ VALID_COMPANIES → amount ≤ 0 →
        validate_paybill (some a) amount company is_admin st
          = some "Amount must be positive.")
    ∧ (a.is_disabled = false → company ∈ VALID_COMPANIES → 0 < amount →
        is_admin = false → MAX_PAYBILL_STANDARD < st + amount →
        validate_paybill (some a) amount company is_admin st
          = some "Maximum paybill per session is $2000.00.")
    ∧ (a.is_disabled = false → company ∈ VALID_COMPANIES → 0 < amount →
        (is_admin = false → st + amount ≤ MAX_PAYBILL_STANDARD) →
        a.balance < amount →
        validate_paybill (some a) amount company is_admin st
          = some "Insufficient funds.") := by
  refine ⟨fun amount' ia st' => rfl, fun h1 => ?_, fun h1 _ => ?_,
    fun h1 h2 => ?_, fun h1 h2 h3 h4 => ?_, fun h1 h2 h3 h4 => ?_,
    fun amount' c ia st' => rfl, fun h1 => ?_, fun h1 h2 => ?_,
    fun h1 h2 h3 => ?_, fun h1 h2 h3 h4 h5 => ?_, fun h1 h2 h3 h4 h5 => ?_⟩
  · rw [validate_withdrawal, if_pos h1]
  · rw [validate_withdrawal, if_pos h1]
  · rw [validate_withdrawal, if_neg (by simp [h1]), if_pos h2]
  · rw [validate_withdrawal, if_neg (by simp [h1]),
      if_neg (not_le.mpr h2), if_pos ⟨h3, h4⟩]
  · rw [validate_withdrawal, if_neg (by simp [h1]), if_neg (not_le.mpr h2),
      if_neg (by rintro ⟨hia, hcap⟩; exact absurd (h3 hia) (not_le.mpr hcap)),
      if_pos h4]
  · rw [validate_paybill, if_pos h1]
  · rw [validate_paybill, if_neg (by simp [h1]), if_pos h2]
  · rw [validate_paybill, if_neg (by simp [h1]), if_neg (not_not.mpr h2),
      if_pos h3]
  · rw [validate_paybill, if_neg (by simp [h1]), if_neg (not_not.mpr h2),
      if_neg (not_le.mpr h3), if_pos ⟨h4, h5⟩]
  · rw [validate_paybill, if_neg (by simp [h1]), if_neg (not_not.mpr h2),
      if_neg (not_le.mpr h3),
      if_neg (by rintro ⟨hia, hcap⟩; exact absurd (h4 hia) (not_le.mpr hcap)),
      if_pos h5]

theorem C8_validator_rule_order_witness :
    Account.is_disabled ⟨"00001", "Alice", "D", 10⟩ = true
    ∧ (Account.balance ⟨"00001", "Alice", "D", 10⟩ < 50)
    ∧ validate_withdrawal (some ⟨"00001", "Alice", "D", 10⟩) 50 false 0
        = some "Account is disabled."
    ∧ validate_paybill (some ⟨"00001", "Alice", "D", 10⟩) 50 "EC" false 0
        = some "Account is disabled." :=
  ⟨by decide, by decide,
    (C8_validator_rule_order ⟨"00001", "Alice", "D", 10⟩ 50 false 0 "EC").2.2.1
      (by decide) (by decide),
    (C8_validator_rule_order ⟨"00001", "Alice", "D", 10⟩ 50 false 0 "EC").2.2.2.2.2.2.2.1
      (by decide)⟩

/-- C9: whenever any controller operation returns `success = false`, the
entire controller state — accounts, balances, statuses, the transaction
log, the session totals and the login state — is unchanged. -/
theorem C9_failure_atomicity (s : BankingSystem) (op : Op)
    (h : (applyOp s op).2.1 = false) : (applyOp s op).1 = s := by
  cases op with
  | login mode user => exact process_login_fail h
  | logout => exact process_logout_fail h
  | withdrawal num amt hn => exact process_withdrawal_fail h
  | transfer src tgt amt hn => exact process_transfer_fail h
  | paybill num amt company hn => exact process_paybill_fail h
  | deposit num amt hn => exact process_deposit_fail h
  | create name bal => exact process_create_fail h
  | delete name num => exact process_delete_fail h
  | disable name num => exact process_disable_fail h
  | changeplan name num => exact process_changeplan_fail h

theorem C9_failure_atomicity_witness :
    (applyOp (startState [⟨"00001", "Alice", "A", 1000⟩])
        (.withdrawal "00001" 100 none)).2.1 = false
    ∧ (applyOp (startState [⟨"00001", "Alice", "A", 1000⟩])
        (.withdrawal "00001" 100 none)).1
      = startState [⟨"00001", "Alice", "A", 1000⟩] :=
  ⟨by decide,
    C9_failure_atomicity (startState [⟨"00001", "Alice", "A", 1000⟩])
      (.withdrawal "00001" 100 none) (by decide)⟩

/-- C10: the generated account number never collides with an existing
account number, so `process_create` always passes `account_exists = false`
to the validator and a logged-in admin's create request can fail only with
the name-length or balance-range messages — never with
"Account number already exists.". -/
theorem C10_create_exists_unreachable (accounts : List Account)
    (s : BankingSystem) (name : String) (bal : ℚ) :
    find_account_by_number_idx accounts (generate_account_number accounts) = none
    ∧ (find_account_by_number_idx s.accounts
        (generate_account_number s.accounts)).isSome = false
    ∧ (s.is_logged_in = true → s.is_admin = true →
        (s.process_create name bal).2.1 = false →
        ((s.process_create name bal).2.2
            = "Account holder name must be at most 20 characters."
          ∨ (s.process_create name bal).2.2
            = "Initial balance cannot be negative."
          ∨ (s.process_create name bal).2.2
            = "Maximum account balance is $99999.99.")) := by
  refine ⟨generate_account_number_fresh accounts, ?_, ?_⟩
  · rw [generate_account_number_fresh s.accounts]
    rfl
  · intro hli hadm hfail
    rcases hE : s.process_create name bal with ⟨s', ok, msg⟩
    rw [hE] at hfail
    simp only at hfail ⊢
    unfold process_create at hE
    dsimp only at hE
    split at hE
    · next hc => rw [hli] at hc; cases hc
    · split at hE
      · next hc => rw [hadm] at hc; cases hc
      · split at hE
        · next error heq =>
          cases hE
          rw [generate_account_number_fresh s.accounts] at heq
          simp only [Option.isSome_none] at heq
          rw [validate_create] at heq
          split_ifs at heq with g1 g2 g3 g4
          · exact Or.inl (Option.some.injEq .. ▸ heq).symm
          · exact Or.inr (Or.inl (Option.some.injEq .. ▸ heq).symm)
          · exact Or.inr (Or.inr (Option.some.injEq .. ▸ heq).symm)
          · cases g4
        · cases hE
          cases hfail

theorem C10_create_exists_unreachable_witness :
    (runOps (startState [⟨"00001", "Alice", "A", 1000⟩])
        [.login "admin" none]).is_logged_in = true
    ∧ (runOps (startState [⟨"00001", "Alice", "A", 1000⟩])
        [.login "admin" none]).is_admin = true
    ∧ ((runOps (startState [⟨"00001", "Alice", "A", 1000⟩])
        [.login "admin" none]).process_create "AAAAAAAAAAAAAAAAAAAAAAAAA"
        100).2.1 = false
    ∧ (((runOps (startState [⟨"00001", "Alice", "A", 1000⟩])
        [.login "admin" none]).process_create "AAAAAAAAAAAAAAAAAAAAAAAAA"
        100).2.2 = "Account holder name must be at most 20 characters."
      ∨ ((runOps (startState [⟨"00001", "Alice", "A", 1000⟩])
          [.login "admin" none]).process_create "AAAAAAAAAAAAAAAAAAAAAAAAA"
          100).2.2 = "Initial balance cannot be negative."
      ∨ ((runOps (startState [⟨"00001", "Alice", "A", 1000⟩])
          [.login "admin" none]).process_create "AAAAAAAAAAAAAAAAAAAAAAAAA"
          100).2.2 = "Maximum account balance is $99999.99.") :=
  ⟨by decide, by decide, by decide,
    (C10_create_exists_unreachable []
      (runOps (startState [⟨"00001", "Alice", "A", 1000⟩]) [.login "admin" none])
      "AAAAAAAAAAAAAAAAAAAAAAAAA" 100).2.2 (by decide) (by decide) (by decide)⟩

end Banking
